import Mathlib

/-!
psi-notify: pressure-file resolution, line parsing and threshold evaluation.

A shallow embedding of `psi-notify.c`.

* C `float` is IEEE-754 binary32, kept as its three bit fields (`F32`); `x > y` and the
  truth value of a float follow IEEE semantics (a NaN is never greater, a NaN is "true").
* A file is the list of its characters (one `Char` per C `char`); `fopen` hands out the
  content from the start and adds one open stream, and fails when the process has no
  descriptor left; the source never calls `fclose`.
* `fgets`, `sscanf` (for the directives the program uses), `snprintf` and `access` are
  modelled after ISO C / POSIX.
-/

namespace PsiNotify

set_option maxRecDepth 100000

/-! ## binary32 -/

/-- An IEEE-754 binary32 value: sign bit, 8 exponent bits, 23 fraction bits. -/
structure F32 where
  sign : Bool
  expo : Fin 256
  frac : Fin 8388608
deriving DecidableEq, Repr

namespace F32

/-- Build a binary32 from raw field values. -/
def mk3 (s : Bool) (e f : Nat) : F32 :=
  ⟨s, ⟨e % 256, Nat.mod_lt _ (by decide)⟩, ⟨f % 8388608, Nat.mod_lt _ (by decide)⟩⟩

/-- Positive zero, the value every field has after `calloc`. -/
def zero : F32 := mk3 false 0 0

/-- A quiet NaN. -/
def qnan (s : Bool) : F32 := mk3 s 255 4194304

/-- Infinity. -/
def inf (s : Bool) : F32 := mk3 s 255 0

def isNaN (x : F32) : Bool := x.expo.val == 255 && x.frac.val != 0

/-- Magnitude in units of `2^-149`. Infinity gets a magnitude above every finite one. -/
def mag (x : F32) : Nat :=
  if x.expo.val = 0 then x.frac.val else (8388608 + x.frac.val) * 2 ^ (x.expo.val - 1)

/-- Signed magnitude in units of `2^-149` (both zeros map to 0). -/
def toInt (x : F32) : Int := if x.sign then - (x.mag : Int) else (x.mag : Int)

/-- The C comparison `a > b` on floats: false whenever an operand is a NaN. -/
def gt (a b : F32) : Bool := !a.isNaN && !b.isNaN && decide (b.toInt < a.toInt)

/-- The truth value of a float used as a C condition, `x != 0`: both zeros are false,
everything else (NaN included) is true. -/
def truthy (x : F32) : Bool := !(x.expo.val == 0 && x.frac.val == 0)

/-- Round `n / d` to the nearest natural number, ties to even (`d` positive). -/
def rne (n d : Nat) : Nat :=
  let q := n / d
  let r := n % d
  if 2 * r < d then q
  else if d < 2 * r then q + 1
  else if q % 2 = 0 then q else q + 1

/-- Floor of the base-2 logarithm (0 at 0), by repeated halving; `fuel` bounds the number
of halvings and `fuel = n` always suffices. -/
def ilog2 : Nat → Nat → Nat
  | 0, _ => 0
  | fuel + 1, n => if n < 2 then 0 else ilog2 fuel (n / 2) + 1

/-- The binary32 nearest to `± num / den` (round to nearest, ties to even; overflow gives
infinity). `den` is positive. -/
def ofRatio (neg : Bool) (num den : Nat) : F32 :=
  let s := num * 2 ^ 149
  let k := ilog2 (s / den) (s / den) - 23
  let m := rne s (den * 2 ^ k)
  let e := if m < 8388608 then 0 else if m < 16777216 then k + 1 else k + 2
  let f := if m < 16777216 then m % 8388608 else 0
  if 255 ≤ e then inf neg else mk3 neg e f

/-- The constant `0.1f`. -/
def c0_1 : F32 := ofRatio false 1 10

end F32

/-! ## Characters -/

/-- C `isspace` in the "C" locale. -/
def isspace (c : Char) : Bool :=
  c == ' ' || c == '\t' || c == '\n' || c == Char.ofNat 11 || c == Char.ofNat 12 || c == '\r'

/-- C `isdigit`. -/
def isdigit (c : Char) : Bool := decide ('0'.toNat ≤ c.toNat) && decide (c.toNat ≤ '9'.toNat)

/-- C `isxdigit`. -/
def isxdigit (c : Char) : Bool :=
  isdigit c
    || (decide ('a'.toNat ≤ c.toNat) && decide (c.toNat ≤ 'f'.toNat))
    || (decide ('A'.toNat ≤ c.toNat) && decide (c.toNat ≤ 'F'.toNat))

/-- ASCII lower-casing, as `tolower`. -/
def tolower (c : Char) : Char :=
  if 'A'.toNat ≤ c.toNat ∧ c.toNat ≤ 'Z'.toNat then Char.ofNat (c.toNat + 32) else c

/-- Characters allowed inside `nan(...)`: digits, letters and the underscore. -/
def isnchar (c : Char) : Bool :=
  isdigit c || c == '_'
    || (decide ('a'.toNat ≤ c.toNat) && decide (c.toNat ≤ 'z'.toNat))
    || (decide ('A'.toNat ≤ c.toNat) && decide (c.toNat ≤ 'Z'.toNat))

/-- Value of a hexadecimal digit. -/
def xval (c : Char) : Nat :=
  if isdigit c then c.toNat - '0'.toNat
  else if 'a'.toNat ≤ c.toNat then c.toNat - 'a'.toNat + 10
  else c.toNat - 'A'.toNat + 10

/-- Value of a digit string in the given base, most significant digit first. -/
def digitsVal (base : Nat) (ds : List Char) : Nat :=
  ds.foldl (fun acc c => acc * base + xval c) 0

/-! ## The `%f` conversion (ISO C `strtod` subject sequences, converted to `float`) -/

/-- Value of the decimal subject `digits × 10^(±e - fraclen)` as a binary32. -/
def decimalValue (neg : Bool) (digits : List Char) (fraclen : Nat) (eneg : Bool) (e : Nat) :
    F32 :=
  let d := digitsVal 10 digits
  if eneg then F32.ofRatio neg d (10 ^ (e + fraclen))
  else if fraclen ≤ e then F32.ofRatio neg (d * 10 ^ (e - fraclen)) 1
  else F32.ofRatio neg d (10 ^ (fraclen - e))

/-- Value of the hexadecimal subject `digits × 2^(±e - 4·fraclen)` as a binary32. -/
def hexValue (neg : Bool) (digits : List Char) (fraclen : Nat) (eneg : Bool) (e : Nat) : F32 :=
  let d := digitsVal 16 digits
  if eneg then F32.ofRatio neg d (2 ^ (e + 4 * fraclen))
  else if 4 * fraclen ≤ e then F32.ofRatio neg (d * 2 ^ (e - 4 * fraclen)) 1
  else F32.ofRatio neg d (2 ^ (4 * fraclen - e))

/-- An optional sign in front of an exponent. -/
def takeSign : List Char → Bool × List Char
  | '-' :: t => (true, t)
  | '+' :: t => (false, t)
  | t => (false, t)

/-- A decimal floating constant: `digits [. digits] [e [sign] digits]` with at least one
digit before the exponent. The input item is the longest leading part of the input that
can still be extended to such a constant; `none` when that item is not itself one. -/
def scanDecimal (neg : Bool) (cs : List Char) : Option (F32 × List Char) :=
  let ip := cs.takeWhile isdigit
  let r1 := cs.dropWhile isdigit
  let fp := match r1 with
    | '.' :: t => t.takeWhile isdigit
    | _ => []
  let r2 := match r1 with
    | '.' :: t => t.dropWhile isdigit
    | _ => r1
  if ip.isEmpty && fp.isEmpty then none
  else
    match r2 with
    | c :: t =>
      if tolower c = 'e' then
        let ed := (takeSign t).2.takeWhile isdigit
        if ed.isEmpty then none
        else some (decimalValue neg (ip ++ fp) fp.length (takeSign t).1 (digitsVal 10 ed),
                   (takeSign t).2.dropWhile isdigit)
      else some (decimalValue neg (ip ++ fp) fp.length false 0, r2)
    | [] => some (decimalValue neg (ip ++ fp) fp.length false 0, [])

/-- A hexadecimal floating constant, after its `0x`: `hexdigits [. hexdigits]
[p [sign] digits]` with at least one hexadecimal digit. -/
def scanHex (neg : Bool) (cs : List Char) : Option (F32 × List Char) :=
  let ip := cs.takeWhile isxdigit
  let r1 := cs.dropWhile isxdigit
  let fp := match r1 with
    | '.' :: t => t.takeWhile isxdigit
    | _ => []
  let r2 := match r1 with
    | '.' :: t => t.dropWhile isxdigit
    | _ => r1
  if ip.isEmpty && fp.isEmpty then none
  else
    match r2 with
    | c :: t =>
      if tolower c = 'p' then
        let ed := (takeSign t).2.takeWhile isdigit
        if ed.isEmpty then none
        else some (hexValue neg (ip ++ fp) fp.length (takeSign t).1 (digitsVal 10 ed),
                   (takeSign t).2.dropWhile isdigit)
      else some (hexValue neg (ip ++ fp) fp.length false 0, r2)
    | [] => some (hexValue neg (ip ++ fp) fp.length false 0, [])

/-- Number of leading input characters that agree, ignoring case, with a lower-case word. -/
def matchWord : List Char → List Char → Nat
  | w :: ws, c :: cs => if tolower c = w then matchWord ws cs + 1 else 0
  | _, _ => 0

/-- The subjects `inf`, `infinity`, `nan` and `nan(n-char-sequence)`, in any case. -/
def scanInfNan (neg : Bool) (cs : List Char) : Option (F32 × List Char) :=
  let n := matchWord ['i', 'n', 'f', 'i', 'n', 'i', 't', 'y'] cs
  if n = 8 then some (F32.inf neg, cs.drop 8)
  else if n = 3 then some (F32.inf neg, cs.drop 3)
  else if 0 < n then none
  else if matchWord ['n', 'a', 'n'] cs = 3 then
    match cs.drop 3 with
    | '(' :: t =>
      match t.dropWhile isnchar with
      | ')' :: u => some (F32.qnan neg, u)
      | _ => none
    | r => some (F32.qnan neg, r)
  else none

/-- The body of a floating subject sequence, after white space and the optional sign. -/
def scanFloatBody (neg : Bool) (b : List Char) : Option (F32 × List Char) :=
  match b with
  | [] => none
  | d :: u =>
    if tolower d = 'i' || tolower d = 'n' then scanInfNan neg b
    else if d = '0' then
      match u with
      | x :: v => if tolower x = 'x' then scanHex neg v else scanDecimal neg b
      | [] => scanDecimal neg b
    else scanDecimal neg b

/-- Outcome of executing one directive. -/
inductive Step where
  | ok (assigned : Option F32) (rest : List Char)
  | matchFail
  | inputFail
deriving DecidableEq, Repr

/-- The conversion `%f`: skip white space, then read the longest input item that is, or
can be extended to, a floating subject sequence. End of input before any character is an
input failure; an item that is not a complete subject sequence is a matching failure. -/
def scan_f (input : List Char) : Step :=
  match input.dropWhile isspace with
  | [] => Step.inputFail
  | c :: t =>
    let r :=
      if c = '-' then scanFloatBody true t
      else if c = '+' then scanFloatBody false t
      else scanFloatBody false (c :: t)
    match r with
    | some (v, rest) => Step.ok (some v) rest
    | none => Step.matchFail

/-! ## `sscanf` -/

/-- The directives that occur in the formats of this program. -/
inductive Directive where
  | space
  | lit (c : Char)
  | skipStr
  | float
deriving DecidableEq, Repr

/-- Decode a format string: `%*s`, `%f`, white space, ordinary characters. -/
def parseFormat : List Char → List Directive
  | [] => []
  | '%' :: '*' :: 's' :: r => Directive.skipStr :: parseFormat r
  | '%' :: 'f' :: r => Directive.float :: parseFormat r
  | c :: r => (if isspace c then Directive.space else Directive.lit c) :: parseFormat r

/-- Execute one directive on the remaining input. -/
def runDirective : Directive → List Char → Step
  | Directive.space, inp => Step.ok none (inp.dropWhile isspace)
  | Directive.lit _, [] => Step.inputFail
  | Directive.lit c, d :: r => if d = c then Step.ok none r else Step.matchFail
  | Directive.skipStr, inp =>
    match inp.dropWhile isspace with
    | [] => Step.inputFail
    | r => Step.ok none (r.dropWhile (fun c => !isspace c))
  | Directive.float, inp => scan_f inp

/-- The value of the macro `EOF`. -/
def EOF : Int := -1

/-- Execute the directives in order. `acc` are the values assigned so far, `conv` tells
whether a conversion has completed. The result is the return value of `sscanf` (the number
of assigned items, or `EOF` on an input failure before the first conversion completed)
and the values stored through the pointer arguments, in order. -/
def runFormat : List Directive → List Char → List F32 → Bool → Int × List F32
  | [], _, acc, _ => ((acc.length : Int), acc)
  | d :: ds, inp, acc, conv =>
    match runDirective d inp with
    | Step.ok none r => runFormat ds r acc (conv || d == Directive.skipStr)
    | Step.ok (some v) r => runFormat ds r (acc ++ [v]) true
    | Step.matchFail => ((acc.length : Int), acc)
    | Step.inputFail => (if conv then (acc.length : Int) else EOF, acc)

/-- The C string held in a character buffer: everything before the first NUL. -/
def cstr (buf : List Char) : List Char := buf.takeWhile (fun c => c != Char.ofNat 0)

/-- The call `sscanf(buf, format, &v0, &v1, ...)` with `float *` arguments. -/
def sscanf (buf : List Char) (format : String) : Int × List F32 :=
  runFormat (parseFormat format.toList) (cstr buf) [] false

/-! ## Data model -/

structure TimeResourcePressure where
  some : F32
  full : F32
deriving DecidableEq, Repr

structure Pressure where
  ten : TimeResourcePressure
  sixty : TimeResourcePressure
  three_hundred : TimeResourcePressure
deriving DecidableEq, Repr

/-- A monitored resource; `filename = none` is the C null pointer. -/
structure Resource where
  filename : Option String
  thresholds : Pressure
deriving DecidableEq, Repr

structure Config where
  cpu : Resource
  memory : Resource
  io : Resource
deriving DecidableEq, Repr

/-! ## Environment -/

/-- What the process sees at start-up. -/
structure Sys where
  /-- The value of `getuid()`, a 32-bit unsigned `uid_t`. -/
  uid : Nat
  /-- Whether `access(path, R_OK) == 0`. -/
  readable : String → Bool
  /-- Whether the n-th allocation request of the process (`calloc`/`malloc`) succeeds. -/
  alloc : Nat → Bool

/-- What the process sees and leaves behind while polling. -/
structure World where
  /-- What opening `path` for reading finds: the content of the file, or the `strerror`
  text of the failure. -/
  disk : String → Except String (List Char)
  /-- The number of streams opened with `fopen` and not closed. -/
  open_streams : Nat
  /-- The number of streams the process can have open at a time: its descriptor limit,
  less the descriptors in other use. -/
  max_streams : Nat
  /-- What has been written to `stderr`, oldest first. -/
  stderr : List String
  /-- The messages handed to the desktop notifier, oldest first. -/
  notified : List String

/-- The outcome of `fopen(path, "r")` in a world: with no descriptor left the call fails
with `EMFILE`, before the path is looked at; otherwise the content of the file, or the
`strerror` text of the failure. -/
def World.files (w : World) (path : String) : Except String (List Char) :=
  if w.open_streams < w.max_streams then w.disk path
  else Except.error "Too many open files"

/-- The process ends through `abort()` after `perror(what)`. -/
inductive Fatal where
  | abort (what : String)
deriving DecidableEq, Repr

/-! ## Library calls -/

/-- The constant `PATH_MAX` of `linux/limits.h`. -/
def PATH_MAX : Nat := 4096

/-- The constant `EINVAL` of `errno.h`. -/
def EINVAL : Int := 22

/-- The text `printf` produces for `%d` when handed a `uid_t`: the 32-bit value read as a
signed `int`. -/
def print_d (v : Nat) : String :=
  if v % 4294967296 < 2147483648 then Nat.repr (v % 4294967296)
  else "-" ++ Nat.repr (4294967296 - v % 4294967296)

/-- The call `snprintf(buf, size, ...)`, given the complete formatted text: at most
`size - 1` characters are stored. -/
def snprintf (size : Nat) (text : String) : String := String.mk (text.toList.take (size - 1))

/-- The call `fopen(path, "r")`: the stream (its unread content) and the world with one more
open stream, or the error text. -/
def fopen (path : String) (w : World) : Except String (List Char × World) :=
  match w.files path with
  | Except.ok content => Except.ok (content, { w with open_streams := w.open_streams + 1 })
  | Except.error e => Except.error e

/-- Characters `fgets` takes from a stream when `k` more fit: up to and including the
first newline. -/
def fgets_take : Nat → List Char → List Char × List Char
  | 0, s => ([], s)
  | _ + 1, [] => ([], [])
  | k + 1, c :: s => if c = '\n' then ([c], s) else ((fgets_take k s).1.cons c, (fgets_take k s).2)

/-- The call `fgets(buf, size, f)`: `none` (NULL) at end of file, else the characters stored
(at most `size - 1`, ending after a newline) and the rest of the stream. -/
def fgets (size : Nat) (stream : List Char) : Option (List Char × List Char) :=
  match stream with
  | [] => none
  | _ :: _ => some (fgets_take (size - 1) stream)

/-- The call `perror(s)` after a failure with error text `e`. -/
def perror (s e : String) (w : World) : World :=
  { w with stderr := w.stderr ++ [s ++ ": " ++ e ++ "\n"] }

/-- The call `fprintf(stderr, ...)`, given the complete formatted text. -/
def fprintf_stderr (text : String) (w : World) : World :=
  { w with stderr := w.stderr ++ [text] }

/-! ## The program -/

/-- Source `get_pressure_file`. `n` is the index of the allocation request it makes. -/
def get_pressure_file (sys : Sys) (n : Nat) (resource : String) :
    Except Fatal (Option String) :=
  if !sys.alloc n then Except.error (Fatal.abort "malloc")
  else
    let path := snprintf PATH_MAX
      ("/sys/fs/cgroup/user.slice/user-" ++ print_d sys.uid ++ ".slice/" ++ resource
        ++ ".pressure")
    if sys.readable path then Except.ok (some path)
    else
      let path := snprintf PATH_MAX ("/proc/pressure/" ++ resource)
      if sys.readable path then Except.ok (some path)
      else Except.ok none

/-- Source `update_thresholds`. -/
def update_thresholds (c : Config) : Config :=
  let c := { c with cpu := { c.cpu with thresholds := { c.cpu.thresholds with
    ten := { c.cpu.thresholds.ten with some := F32.c0_1 } } } }
  { c with memory := { c.memory with thresholds := { c.memory.thresholds with
    sixty := { c.memory.thresholds.sixty with some := F32.c0_1 } } } }

/-- A `Resource` as `calloc` leaves it: null filename, all thresholds `+0.0`. -/
def Resource.zeroed : Resource :=
  ⟨none, ⟨⟨F32.zero, F32.zero⟩, ⟨F32.zero, F32.zero⟩, ⟨F32.zero, F32.zero⟩⟩⟩

/-- Source `init_config`. Its allocation requests are numbered 0 (the `calloc`) to 3. -/
def init_config (sys : Sys) : Except Fatal Config :=
  if !sys.alloc 0 then Except.error (Fatal.abort "calloc")
  else
    let c : Config := ⟨Resource.zeroed, Resource.zeroed, Resource.zeroed⟩
    match get_pressure_file sys 1 "cpu" with
    | Except.error e => Except.error e
    | Except.ok cpu =>
      let c := { c with cpu := { c.cpu with filename := cpu } }
      match get_pressure_file sys 2 "memory" with
      | Except.error e => Except.error e
      | Except.ok memory =>
        let c := { c with memory := { c.memory with filename := memory } }
        match get_pressure_file sys 3 "io" with
        | Except.error e => Except.error e
        | Except.ok io =>
          let c := { c with io := { c.io with filename := io } }
          Except.ok (update_thresholds c)

/-- The macro `PRESSURE_LINE_LEN`. -/
def PRESSURE_LINE_LEN : Nat := 64

/-- The format both `sscanf` calls of `check_pressures` use. -/
def PRESSURE_FORMAT : String := "%*s avg10=%f avg60=%f avg300=%f total=%*s"

/-- Source `check_pressures`: the returned `int` and the world after the call. -/
def check_pressures (r : Resource) (has_full : Int) (w : World) : Int × World :=
  match r.filename with
  | none => (0, w)
  | some filename =>
    match fopen filename w with
    | Except.error e => (-EINVAL, perror filename e w)
    | Except.ok (f, w) =>
      match fgets PRESSURE_LINE_LEN f with
      | none => (-EINVAL, fprintf_stderr ("Premature EOF from " ++ filename ++ "\n") w)
      | some (line, f) =>
        let ret := sscanf line PRESSURE_FORMAT
        if ret.1 ≠ 3 then
          (-EINVAL, fprintf_stderr ("Can't parse 'some' from " ++ filename ++ "\n") w)
        else
          let ten := ret.2.getD 0 F32.zero
          let sixty := ret.2.getD 1 F32.zero
          let three_hundred := ret.2.getD 2 F32.zero
          if (r.thresholds.ten.some.truthy && ten.gt r.thresholds.ten.some)
              || (r.thresholds.sixty.some.truthy && sixty.gt r.thresholds.sixty.some)
              || (r.thresholds.three_hundred.some.truthy
                  && three_hundred.gt r.thresholds.three_hundred.some) then
            (1, w)
          else if has_full = 0 then (0, w)
          else
            match fgets PRESSURE_LINE_LEN f with
            | none => (-EINVAL, fprintf_stderr ("Premature EOF from " ++ filename ++ "\n") w)
            | some (line, _) =>
              let ret := sscanf line PRESSURE_FORMAT
              if ret.1 ≠ 3 then
                (-EINVAL, fprintf_stderr ("Can't parse 'full' from " ++ filename ++ "\n") w)
              else
                let ten := ret.2.getD 0 F32.zero
                let sixty := ret.2.getD 1 F32.zero
                let three_hundred := ret.2.getD 2 F32.zero
                if (r.thresholds.ten.full.truthy && ten.gt r.thresholds.ten.full)
                    || (r.thresholds.sixty.full.truthy && sixty.gt r.thresholds.sixty.full)
                    || (r.thresholds.three_hundred.full.truthy
                        && three_hundred.gt r.thresholds.three_hundred.full) then
                  (1, w)
                else (0, w)

/-- Source `notify`: the message reaches the notifier. -/
def notify (msg : String) (w : World) : World :=
  { w with notified := w.notified ++ [msg] }

/-- One pass through the body of the `while (1)` loop of `main`, up to the `sleep`. -/
def poll_cycle (config : Config) (w : World) : World :=
  let c := check_pressures config.cpu 0 w
  let w := if c.1 > 0 then notify "CPU pressure high" c.2 else c.2
  let m := check_pressures config.memory 1 w
  let w := if m.1 > 0 then notify "Memory pressure high" m.2 else m.2
  let i := check_pressures config.io 1 w
  if i.1 > 0 then notify "I/O pressure high" i.2 else i.2

/-! ## Sample inputs -/

/-- A world whose only file that opens is `path`, holding `content`; no stream is open,
1024 can be, and nothing has been written yet. -/
def World.single (path content : String) : World :=
  ⟨fun p => if p = path then Except.ok content.toList
            else Except.error "No such file or directory", 0, 1024, [], []⟩

/-- Thresholds with every entry unset (`+0.0`). -/
def Pressure.unset : Pressure :=
  ⟨⟨F32.zero, F32.zero⟩, ⟨F32.zero, F32.zero⟩, ⟨F32.zero, F32.zero⟩⟩

/-- Thresholds whose only non-zero entry is `ten.some = 0.1f`. -/
def Pressure.tenSome : Pressure :=
  ⟨⟨F32.c0_1, F32.zero⟩, ⟨F32.zero, F32.zero⟩, ⟨F32.zero, F32.zero⟩⟩

/-! ## Vocabulary of the statements -/

/-- The world after a successful `fopen`: one more open stream. -/
def World.opened (w : World) : World := { w with open_streams := w.open_streams + 1 }

/-- The condition of the first threshold test of `check_pressures`, on the three values
read from the `some` line. -/
def someAlert (t : Pressure) (ten sixty three_hundred : F32) : Bool :=
  (t.ten.some.truthy && ten.gt t.ten.some)
    || (t.sixty.some.truthy && sixty.gt t.sixty.some)
    || (t.three_hundred.some.truthy && three_hundred.gt t.three_hundred.some)

/-- The condition of the second threshold test of `check_pressures`, on the three values
read from the `full` line. -/
def fullAlert (t : Pressure) (ten sixty three_hundred : F32) : Bool :=
  (t.ten.full.truthy && ten.gt t.ten.full)
    || (t.sixty.full.truthy && sixty.gt t.sixty.full)
    || (t.three_hundred.full.truthy && three_hundred.gt t.three_hundred.full)

/-- A window trips: its threshold is set (non-zero) and the sample value is strictly
greater than it. -/
def exceeds (x thr : F32) : Prop := thr.truthy = true ∧ x.gt thr = true

/-- Thresholds whose only non-zero entry is `ten.full = 0.1f`. -/
def Pressure.tenFull : Pressure :=
  ⟨⟨F32.zero, F32.c0_1⟩, ⟨F32.zero, F32.zero⟩, ⟨F32.zero, F32.zero⟩⟩

/-- The well-formed two-line record of the specification. -/
def sampleRecord : String :=
  "some avg10=5.00 avg60=3.00 avg300=1.00 total=9999\nfull avg10=2.00 avg60=1.00 avg300=0.50 total=9999\n"

/-- The path of the system-wide memory pressure file. -/
def memoryPath : String := "/proc/pressure/memory"

/-- The text of a decimal numeral: an integer part `ip`, optionally followed by a point and
a fraction part. -/
def numeral (ip : List Char) (fp : Option (List Char)) : List Char :=
  match fp with
  | none => ip
  | some f => ip ++ '.' :: f

/-- A decimal numeral: a non-empty digit string, optionally a point and a digit string. -/
def IsNumeral (ip : List Char) (fp : Option (List Char)) : Prop :=
  ip ≠ [] ∧ (∀ c ∈ ip, isdigit c = true) ∧ ∀ f, fp = some f → ∀ c ∈ f, isdigit c = true

/-- The `float` a decimal numeral denotes: the binary32 nearest to
`digits / 10^(number of fraction digits)`. -/
def numeralValue (ip : List Char) (fp : Option (List Char)) : F32 :=
  F32.ofRatio false (digitsVal 10 (ip ++ fp.getD [])) (10 ^ (fp.getD []).length)

/-- A token: non-empty, without white space and without NUL. -/
def IsToken (l : List Char) : Prop :=
  l ≠ [] ∧ ∀ c ∈ l, isspace c = false ∧ c ≠ Char.ofNat 0

/-- A line of the shape `<label> avg10=<a> avg60=<b> avg300=<c> total=<t>`. -/
def pressureLine (label a b c t : List Char) : List Char :=
  label ++ " avg10=".toList ++ a ++ " avg60=".toList ++ b ++ " avg300=".toList ++ c
    ++ " total=".toList ++ t

/-- A start-up environment: user 1000, every allocation succeeds, and the only readable
pressure file is `/proc/pressure/cpu`. -/
def Sys.cpuOnly : Sys :=
  ⟨1000, fun p => p == "/proc/pressure/cpu", fun _ => true⟩

/-- A world with the given files (path, content); no stream is open, 1024 can be, and
nothing has been written yet. -/
def World.ofFiles (fs : List (String × String)) : World :=
  ⟨fun p => match fs.lookup p with
    | some c => Except.ok c.toList
    | none => Except.error "No such file or directory", 0, 1024, [], []⟩

/-- A configuration with the three system-wide files bound and the thresholds of
`update_thresholds`. -/
def sampleConfig : Config :=
  ⟨⟨some "/proc/pressure/cpu", Pressure.tenSome⟩,
   ⟨some "/proc/pressure/memory",
     ⟨⟨F32.zero, F32.zero⟩, ⟨F32.c0_1, F32.zero⟩, ⟨F32.zero, F32.zero⟩⟩⟩,
   ⟨some "/proc/pressure/io", Pressure.unset⟩⟩

/-- A world in which the three system-wide files report no pressure. -/
def sampleWorld : World :=
  World.ofFiles
    [("/proc/pressure/cpu", "some avg10=0.00 avg60=0.00 avg300=0.00 total=0\n"),
     ("/proc/pressure/memory",
       "some avg10=0.00 avg60=0.00 avg300=0.00 total=0\nfull avg10=0.00 avg60=0.00 avg300=0.00 total=0\n"),
     ("/proc/pressure/io",
       "some avg10=0.00 avg60=0.00 avg300=0.00 total=0\nfull avg10=0.00 avg60=0.00 avg300=0.00 total=0\n")]

/-- The C comparison `a <= b` on floats: false whenever an operand is a NaN. -/
def F32.le (a b : F32) : Bool := !a.isNaN && !b.isNaN && decide (a.toInt ≤ b.toInt)

/-- A sample value does not lie above its threshold: it is exactly the threshold, or it
compares less than or equal to it. -/
def atMost (x thr : F32) : Prop := x = thr ∨ F32.le x thr = true

/-- Thresholds whose only non-zero entry is `sixty.some = 0.1f`. -/
def Pressure.sixtySome : Pressure :=
  ⟨⟨F32.zero, F32.zero⟩, ⟨F32.c0_1, F32.zero⟩, ⟨F32.zero, F32.zero⟩⟩

/-- Thresholds with `ten.some = 0.1f` and `sixty.full = 0.1f`, the rest unset. -/
def Pressure.tenSomeSixtyFull : Pressure :=
  ⟨⟨F32.c0_1, F32.zero⟩, ⟨F32.zero, F32.c0_1⟩, ⟨F32.zero, F32.zero⟩⟩

/-- Thresholds with `ten.some = 0.1f` and all three `full` entries `0.1f`. -/
def Pressure.tenSomeAllFull : Pressure :=
  ⟨⟨F32.c0_1, F32.c0_1⟩, ⟨F32.zero, F32.c0_1⟩, ⟨F32.zero, F32.c0_1⟩⟩

/-- What the first `fgets` of `check_pressures` stores in `line` for a source: `none` at
end of file. -/
def firstLine (content : List Char) : Option (List Char) :=
  (fgets PRESSURE_LINE_LEN content).map Prod.fst

/-- The configuration `init_config` builds when `/proc/pressure/cpu` is the only readable
pressure file. -/
def cpuOnlyConfig : Config :=
  ⟨⟨some "/proc/pressure/cpu", Pressure.tenSome⟩, ⟨none, Pressure.sixtySome⟩,
   ⟨none, Pressure.unset⟩⟩

/-- The loop of `main` run for `n` passes. -/
def poll_cycles (config : Config) : Nat → World → World
  | 0, w => w
  | n + 1, w => poll_cycles config n (poll_cycle config w)

/-- The three system-wide files, with memory reporting `avg60 = 5.00`. -/
def memoryHighFiles : List (String × String) :=
  [("/proc/pressure/cpu", "some avg10=0.00 avg60=0.00 avg300=0.00 total=0\n"),
   ("/proc/pressure/memory",
     "some avg10=0.00 avg60=5.00 avg300=0.00 total=0\nfull avg10=0.00 avg60=0.00 avg300=0.00 total=0\n"),
   ("/proc/pressure/io",
     "some avg10=0.00 avg60=0.00 avg300=0.00 total=0\nfull avg10=0.00 avg60=0.00 avg300=0.00 total=0\n")]

/-- A world in which 1023 of the 1024 streams are open, as 341 passes of the loop over
three bound resources leave it, and memory reports `avg60 = 5.00`. -/
def busyWorld : World :=
  { World.ofFiles memoryHighFiles with open_streams := 1023 }

/-- The same world without the cpu file. -/
def busyWorldNoCpu : World :=
  { World.ofFiles memoryHighFiles.tail with open_streams := 1023 }

/-- A start-up environment: user id 3000000000, every allocation succeeds, and both the
slice of that user and the system-wide file are readable for cpu. -/
def Sys.largeUid : Sys :=
  ⟨3000000000,
   fun p => p == "/sys/fs/cgroup/user.slice/user-3000000000.slice/cpu.pressure"
     || p == "/proc/pressure/cpu",
   fun _ => true⟩

/-- The same environment for user id 1000. -/
def Sys.smallUid : Sys :=
  ⟨1000,
   fun p => p == "/sys/fs/cgroup/user.slice/user-1000.slice/cpu.pressure"
     || p == "/proc/pressure/cpu",
   fun _ => true⟩

/-! ## Theorems -/

/-! ### The return value of `sscanf` -/

theorem runFormat_ret (ds : List Directive) :
    ∀ (inp : List Char) (acc : List F32) (conv : Bool),
      (runFormat ds inp acc conv).1 = ((runFormat ds inp acc conv).2.length : Int)
        ∨ (runFormat ds inp acc conv).1 = EOF := by
  induction ds with
  | nil => intro inp acc conv; left; rfl
  | cons d ds ih =>
    intro inp acc conv
    unfold runFormat
    cases hstep : runDirective d inp with
    | ok assigned rest =>
      cases assigned with
      | none => exact ih _ _ _
      | some v => exact ih _ _ _
    | matchFail => left; rfl
    | inputFail =>
      cases conv with
      | true => left; rfl
      | false => right; rfl

/-- When `sscanf` returns 3, exactly three values have been stored. -/
theorem sscanf_three (buf : List Char) (format : String) (h : (sscanf buf format).1 = 3) :
    ∃ a b c, sscanf buf format = (3, [a, b, c]) := by
  have hlen : ((sscanf buf format).2.length : Int) = 3 := by
    rcases runFormat_ret (parseFormat format.toList) (cstr buf) [] false with h1 | h1
    · have h2 : (sscanf buf format).1 = ((sscanf buf format).2.length : Int) := h1
      rw [← h2]
      exact h
    · have h2 : (sscanf buf format).1 = EOF := h1
      rw [h] at h2
      exact absurd h2 (by decide)
  have hl : (sscanf buf format).2.length = 3 := by exact_mod_cast hlen
  match hv : (sscanf buf format).2, hl with
  | [a, b, c], _ =>
    refine ⟨a, b, c, ?_⟩
    rw [← hv, ← h]

/-! ### The return paths of `check_pressures` -/

theorem path_open_failure (r : Resource) (has_full : Int) (w : World) (filename e : String)
    (hname : r.filename = some filename) (hopen : w.files filename = Except.error e) :
    check_pressures r has_full w = (-EINVAL, perror filename e w) := by
  unfold check_pressures
  rw [hname]
  simp only []
  unfold fopen
  rw [hopen]

theorem path_eof_some (r : Resource) (has_full : Int) (w : World) (filename : String)
    (content : List Char)
    (hname : r.filename = some filename) (hopen : w.files filename = Except.ok content)
    (hline1 : fgets PRESSURE_LINE_LEN content = none) :
    check_pressures r has_full w
      = (-EINVAL, fprintf_stderr ("Premature EOF from " ++ filename ++ "\n") w.opened) := by
  unfold check_pressures
  rw [hname]
  simp only []
  unfold fopen
  rw [hopen]
  simp only []
  rw [hline1]
  rfl

theorem path_bad_some (r : Resource) (has_full : Int) (w : World) (filename : String)
    (content line1 rest : List Char)
    (hname : r.filename = some filename) (hopen : w.files filename = Except.ok content)
    (hline1 : fgets PRESSURE_LINE_LEN content = some (line1, rest))
    (hsome : (sscanf line1 PRESSURE_FORMAT).1 ≠ 3) :
    check_pressures r has_full w
      = (-EINVAL, fprintf_stderr ("Can't parse 'some' from " ++ filename ++ "\n") w.opened) := by
  unfold check_pressures
  rw [hname]
  simp only []
  unfold fopen
  rw [hopen]
  simp only []
  rw [hline1]
  simp only []
  rw [if_pos hsome]
  rfl

theorem path_alert_some (r : Resource) (has_full : Int) (w : World) (filename : String)
    (content line1 rest : List Char) (s10 s60 s300 : F32)
    (hname : r.filename = some filename) (hopen : w.files filename = Except.ok content)
    (hline1 : fgets PRESSURE_LINE_LEN content = some (line1, rest))
    (hsome : sscanf line1 PRESSURE_FORMAT = (3, [s10, s60, s300]))
    (hs : someAlert r.thresholds s10 s60 s300 = true) :
    check_pressures r has_full w = (1, w.opened) := by
  unfold check_pressures
  rw [hname]
  simp only []
  unfold fopen
  rw [hopen]
  simp only []
  rw [hline1]
  simp only []
  rw [hsome, if_neg (by simp)]
  unfold someAlert at hs
  simp only [List.getD_cons_zero, List.getD_cons_succ]
  rw [if_pos hs]
  rfl

theorem path_normal_some (r : Resource) (has_full : Int) (w : World) (filename : String)
    (content line1 rest : List Char) (s10 s60 s300 : F32)
    (hname : r.filename = some filename) (hopen : w.files filename = Except.ok content)
    (hline1 : fgets PRESSURE_LINE_LEN content = some (line1, rest))
    (hsome : sscanf line1 PRESSURE_FORMAT = (3, [s10, s60, s300]))
    (hs : someAlert r.thresholds s10 s60 s300 = false)
    (hf : has_full = 0) :
    check_pressures r has_full w = (0, w.opened) := by
  unfold check_pressures
  rw [hname]
  simp only []
  unfold fopen
  rw [hopen]
  simp only []
  rw [hline1]
  simp only []
  rw [hsome, if_neg (by simp)]
  unfold someAlert at hs
  simp only [List.getD_cons_zero, List.getD_cons_succ]
  rw [if_neg (by rw [hs]; decide), if_pos hf]
  rfl

theorem path_eof_full (r : Resource) (has_full : Int) (w : World) (filename : String)
    (content line1 rest : List Char) (s10 s60 s300 : F32)
    (hname : r.filename = some filename) (hopen : w.files filename = Except.ok content)
    (hline1 : fgets PRESSURE_LINE_LEN content = some (line1, rest))
    (hsome : sscanf line1 PRESSURE_FORMAT = (3, [s10, s60, s300]))
    (hs : someAlert r.thresholds s10 s60 s300 = false)
    (hf : has_full ≠ 0)
    (hline2 : fgets PRESSURE_LINE_LEN rest = none) :
    check_pressures r has_full w
      = (-EINVAL, fprintf_stderr ("Premature EOF from " ++ filename ++ "\n") w.opened) := by
  unfold check_pressures
  rw [hname]
  simp only []
  unfold fopen
  rw [hopen]
  simp only []
  rw [hline1]
  simp only []
  rw [hsome, if_neg (by simp)]
  unfold someAlert at hs
  simp only [List.getD_cons_zero, List.getD_cons_succ]
  rw [if_neg (by rw [hs]; decide), if_neg hf, hline2]
  rfl

theorem path_bad_full (r : Resource) (has_full : Int) (w : World) (filename : String)
    (content line1 rest line2 rest2 : List Char) (s10 s60 s300 : F32)
    (hname : r.filename = some filename) (hopen : w.files filename = Except.ok content)
    (hline1 : fgets PRESSURE_LINE_LEN content = some (line1, rest))
    (hsome : sscanf line1 PRESSURE_FORMAT = (3, [s10, s60, s300]))
    (hs : someAlert r.thresholds s10 s60 s300 = false)
    (hf : has_full ≠ 0)
    (hline2 : fgets PRESSURE_LINE_LEN rest = some (line2, rest2))
    (hfull : (sscanf line2 PRESSURE_FORMAT).1 ≠ 3) :
    check_pressures r has_full w
      = (-EINVAL, fprintf_stderr ("Can't parse 'full' from " ++ filename ++ "\n") w.opened) := by
  unfold check_pressures
  rw [hname]
  simp only []
  unfold fopen
  rw [hopen]
  simp only []
  rw [hline1]
  simp only []
  rw [hsome, if_neg (by simp)]
  unfold someAlert at hs
  simp only [List.getD_cons_zero, List.getD_cons_succ]
  rw [if_neg (by rw [hs]; decide), if_neg hf, hline2]
  simp only []
  rw [if_pos hfull]
  rfl

theorem path_full (r : Resource) (has_full : Int) (w : World) (filename : String)
    (content line1 rest line2 rest2 : List Char) (s10 s60 s300 f10 f60 f300 : F32)
    (hname : r.filename = some filename) (hopen : w.files filename = Except.ok content)
    (hline1 : fgets PRESSURE_LINE_LEN content = some (line1, rest))
    (hsome : sscanf line1 PRESSURE_FORMAT = (3, [s10, s60, s300]))
    (hs : someAlert r.thresholds s10 s60 s300 = false)
    (hf : has_full ≠ 0)
    (hline2 : fgets PRESSURE_LINE_LEN rest = some (line2, rest2))
    (hfull : sscanf line2 PRESSURE_FORMAT = (3, [f10, f60, f300])) :
    check_pressures r has_full w
      = (if fullAlert r.thresholds f10 f60 f300 then 1 else 0, w.opened) := by
  unfold check_pressures
  rw [hname]
  simp only []
  unfold fopen
  rw [hopen]
  simp only []
  rw [hline1]
  simp only []
  rw [hsome, if_neg (by simp)]
  unfold someAlert at hs
  simp only [List.getD_cons_zero, List.getD_cons_succ]
  rw [if_neg (by rw [hs]; decide), if_neg hf, hline2]
  simp only []
  rw [hfull, if_neg (by simp)]
  simp only [List.getD_cons_zero, List.getD_cons_succ]
  unfold fullAlert
  split <;> rfl

theorem someAlert_iff (t : Pressure) (a b c : F32) :
    someAlert t a b c = true ↔
      exceeds a t.ten.some ∨ exceeds b t.sixty.some ∨ exceeds c t.three_hundred.some := by
  unfold someAlert exceeds
  simp only [Bool.or_eq_true, Bool.and_eq_true]
  tauto

theorem fullAlert_iff (t : Pressure) (a b c : F32) :
    fullAlert t a b c = true ↔
      exceeds a t.ten.full ∨ exceeds b t.sixty.full ∨ exceeds c t.three_hundred.full := by
  unfold fullAlert exceeds
  simp only [Bool.or_eq_true, Bool.and_eq_true]
  tauto

/-! ### Verdicts of `check_pressures` -/

/-- C1: for a resource with a bound source path whose file opens, whose first line (the
text the first `fgets` stores in `line`) parses to the `some` sample `(s10, s60, s300)` and,
when `has_full` is set, whose second line (the text of the second `fgets`) parses to the
`full` sample `(f10, f60, f300)`: `check_pressures` returns a positive value if and only if
some window has a set `some` threshold strictly exceeded by the `some` value, or `has_full`
is set and some window has a set `full` threshold strictly exceeded by the `full` value; in
every other such case it returns 0. -/
theorem check_pressures_alert_iff (r : Resource) (has_full : Int) (w : World)
    (filename : String) (content line1 rest : List Char)
    (s10 s60 s300 f10 f60 f300 : F32)
    (hname : r.filename = some filename)
    (hopen : w.files filename = Except.ok content)
    (hline1 : fgets PRESSURE_LINE_LEN content = some (line1, rest))
    (hsome : sscanf line1 PRESSURE_FORMAT = (3, [s10, s60, s300]))
    (hfull : has_full ≠ 0 → ∃ line2 rest2,
      fgets PRESSURE_LINE_LEN rest = some (line2, rest2)
        ∧ sscanf line2 PRESSURE_FORMAT = (3, [f10, f60, f300])) :
    (0 < (check_pressures r has_full w).1 ↔
      (exceeds s10 r.thresholds.ten.some ∨ exceeds s60 r.thresholds.sixty.some
          ∨ exceeds s300 r.thresholds.three_hundred.some)
        ∨ (has_full ≠ 0 ∧
          (exceeds f10 r.thresholds.ten.full ∨ exceeds f60 r.thresholds.sixty.full
            ∨ exceeds f300 r.thresholds.three_hundred.full)))
    ∧ (¬ 0 < (check_pressures r has_full w).1 → (check_pressures r has_full w).1 = 0) := by
  rw [← someAlert_iff, ← fullAlert_iff]
  cases hs : someAlert r.thresholds s10 s60 s300 with
  | true =>
    rw [path_alert_some r has_full w filename content line1 rest s10 s60 s300
      hname hopen hline1 hsome hs]
    simp
  | false =>
    by_cases hf : has_full = 0
    · rw [path_normal_some r has_full w filename content line1 rest s10 s60 s300
        hname hopen hline1 hsome hs hf]
      simp [hf]
    · obtain ⟨line2, rest2, hline2, hp2⟩ := hfull hf
      rw [path_full r has_full w filename content line1 rest line2 rest2 s10 s60 s300
        f10 f60 f300 hname hopen hline1 hsome hs hf hline2 hp2]
      cases hq : fullAlert r.thresholds f10 f60 f300 <;> simp [hf]

/-- Witness for C1: the two-line record of the specification, read with `has_full = 1`
against the thresholds `ten.full = 0.1f`. -/
theorem check_pressures_alert_iff_witness :
    (0 < (check_pressures ⟨some memoryPath, Pressure.tenFull⟩ 1
          (World.single memoryPath sampleRecord)).1 ↔
      (exceeds (F32.ofRatio false 5 1) Pressure.tenFull.ten.some
          ∨ exceeds (F32.ofRatio false 3 1) Pressure.tenFull.sixty.some
          ∨ exceeds (F32.ofRatio false 1 1) Pressure.tenFull.three_hundred.some)
        ∨ ((1 : Int) ≠ 0 ∧
          (exceeds (F32.ofRatio false 2 1) Pressure.tenFull.ten.full
            ∨ exceeds (F32.ofRatio false 1 1) Pressure.tenFull.sixty.full
            ∨ exceeds (F32.ofRatio false 1 2) Pressure.tenFull.three_hundred.full)))
    ∧ (¬ 0 < (check_pressures ⟨some memoryPath, Pressure.tenFull⟩ 1
          (World.single memoryPath sampleRecord)).1 →
        (check_pressures ⟨some memoryPath, Pressure.tenFull⟩ 1
          (World.single memoryPath sampleRecord)).1 = 0) :=
  check_pressures_alert_iff ⟨some memoryPath, Pressure.tenFull⟩ 1
    (World.single memoryPath sampleRecord) memoryPath sampleRecord.toList
    "some avg10=5.00 avg60=3.00 avg300=1.00 total=9999\n".toList
    "full avg10=2.00 avg60=1.00 avg300=0.50 total=9999\n".toList
    _ _ _ _ _ _ rfl (by simp [World.single, World.files]) (by decide) (by decide)
    (fun _ => ⟨"full avg10=2.00 avg60=1.00 avg300=0.50 total=9999\n".toList, [],
      by decide, by decide⟩)

/-- C5: a resource without a bound source path (null `filename`) is evaluated as Normal:
`check_pressures` returns 0 for every thresholds value and every `has_full`, and leaves the
world as it was: no stream is opened, nothing is read and nothing is reported. -/
theorem check_pressures_unbound (r : Resource) (has_full : Int) (w : World)
    (h : r.filename = none) : check_pressures r has_full w = (0, w) := by
  unfold check_pressures
  rw [h]

theorem check_pressures_unbound_witness :
    (Resource.mk none Pressure.tenSome).filename = none ∧
      check_pressures (Resource.mk none Pressure.tenSome) 1
          (World.single "/proc/pressure/memory" "some avg10=50.00 avg60=0.00 avg300=0.00 total=0\n")
        = (0, World.single "/proc/pressure/memory"
            "some avg10=50.00 avg60=0.00 avg300=0.00 total=0\n") :=
  ⟨rfl, check_pressures_unbound _ 1 _ rfl⟩

/-- C2, counterexample: with `has_full` set and a first line whose `avg10` exceeds the
threshold `ten.some = 0.1f`, the result is Alert (1) although the source has no second line
(first input) or a second line without any numeric field (second input). -/
theorem full_line_not_required_after_alert :
    (check_pressures ⟨some memoryPath, Pressure.tenSome⟩ 1
        (World.single memoryPath "some avg10=5.00 avg60=3.00 avg300=1.00 total=9999\n")).1 = 1
    ∧ (check_pressures ⟨some memoryPath, Pressure.tenSome⟩ 1
        (World.single memoryPath
          "some avg10=5.00 avg60=3.00 avg300=1.00 total=9999\nfull\n")).1 = 1 := by
  constructor <;> decide

/-- C2, amended: with `has_full` set and a first line that parses to values exceeding no
set `some` threshold, the second line is required: when the source has no further input the
result is the Error return `-EINVAL` with the premature-end-of-input report, and when the
next line does not yield three numeric fields the result is `-EINVAL` with the
unparseable-`full`-line report; in neither case is it Alert or Normal. -/
theorem check_pressures_full_required (r : Resource) (has_full : Int) (w : World)
    (filename : String) (content line1 rest : List Char) (s10 s60 s300 : F32)
    (hname : r.filename = some filename)
    (hopen : w.files filename = Except.ok content)
    (hline1 : fgets PRESSURE_LINE_LEN content = some (line1, rest))
    (hsome : sscanf line1 PRESSURE_FORMAT = (3, [s10, s60, s300]))
    (hquiet : ¬ (exceeds s10 r.thresholds.ten.some ∨ exceeds s60 r.thresholds.sixty.some
      ∨ exceeds s300 r.thresholds.three_hundred.some))
    (hf : has_full ≠ 0) :
    (fgets PRESSURE_LINE_LEN rest = none →
      check_pressures r has_full w
        = (-EINVAL, fprintf_stderr ("Premature EOF from " ++ filename ++ "\n") w.opened))
    ∧ (∀ line2 rest2, fgets PRESSURE_LINE_LEN rest = some (line2, rest2) →
        (sscanf line2 PRESSURE_FORMAT).1 ≠ 3 →
        check_pressures r has_full w
          = (-EINVAL, fprintf_stderr ("Can't parse 'full' from " ++ filename ++ "\n") w.opened))
    ∧ ((fgets PRESSURE_LINE_LEN rest = none
          ∨ ∃ line2 rest2, fgets PRESSURE_LINE_LEN rest = some (line2, rest2)
              ∧ (sscanf line2 PRESSURE_FORMAT).1 ≠ 3) →
        (check_pressures r has_full w).1 < 0) := by
  rw [← someAlert_iff, Bool.not_eq_true] at hquiet
  have h1 : fgets PRESSURE_LINE_LEN rest = none →
      check_pressures r has_full w
        = (-EINVAL, fprintf_stderr ("Premature EOF from " ++ filename ++ "\n") w.opened) :=
    fun h => path_eof_full r has_full w filename content line1 rest s10 s60 s300
      hname hopen hline1 hsome hquiet hf h
  have h2 : ∀ line2 rest2, fgets PRESSURE_LINE_LEN rest = some (line2, rest2) →
      (sscanf line2 PRESSURE_FORMAT).1 ≠ 3 →
      check_pressures r has_full w
        = (-EINVAL, fprintf_stderr ("Can't parse 'full' from " ++ filename ++ "\n") w.opened) :=
    fun line2 rest2 h hb => path_bad_full r has_full w filename content line1 rest line2 rest2
      s10 s60 s300 hname hopen hline1 hsome hquiet hf h hb
  refine ⟨h1, h2, ?_⟩
  rintro (h | ⟨line2, rest2, h, hb⟩)
  · rw [h1 h]; exact (by decide : -EINVAL < 0)
  · rw [h2 line2 rest2 h hb]; exact (by decide : -EINVAL < 0)

/-- Witness for C2 (amended): a one-line source whose `avg10 = 0.05` stays below the
threshold `ten.some = 0.1f`, read with `has_full = 1`. -/
theorem check_pressures_full_required_witness :
    check_pressures ⟨some memoryPath, Pressure.tenSome⟩ 1
        (World.single memoryPath "some avg10=0.05 avg60=0.00 avg300=0.00 total=0\n")
      = (-EINVAL, fprintf_stderr ("Premature EOF from " ++ memoryPath ++ "\n")
          (World.single memoryPath
            "some avg10=0.05 avg60=0.00 avg300=0.00 total=0\n").opened) :=
  (check_pressures_full_required ⟨some memoryPath, Pressure.tenSome⟩ 1
    (World.single memoryPath "some avg10=0.05 avg60=0.00 avg300=0.00 total=0\n") memoryPath
    "some avg10=0.05 avg60=0.00 avg300=0.00 total=0\n".toList
    "some avg10=0.05 avg60=0.00 avg300=0.00 total=0\n".toList []
    (F32.ofRatio false 5 100) (F32.ofRatio false 0 1) (F32.ofRatio false 0 1)
    rfl (by simp [World.single, World.files]) (by decide) (by decide)
    (by unfold exceeds; decide) (by decide)).1 (by decide)

/-- C3, the code at the failing input: two records that differ only in one more digit of
the `total` field of the first line. With 11 digits the first line (62 characters) fits the
63 characters `fgets` may store and the `full` line trips the threshold `ten.full = 0.1f`:
Alert. With 12 digits the first `fgets` stops before the newline, the second `fgets`
returns the lone newline instead of the `full` line, and the result is the Error
`-EINVAL` with the unparseable-`full`-line report; with no threshold set the same record
gives Error where the shorter one gives Normal. -/
theorem long_total_turns_verdict_into_error :
    (check_pressures ⟨some memoryPath, Pressure.tenFull⟩ 1
        (World.single memoryPath
          "some avg10=100.00 avg60=100.00 avg300=100.00 total=12345678901\nfull avg10=50.00 avg60=0.00 avg300=0.00 total=0\n")).1
      = 1
    ∧ (check_pressures ⟨some memoryPath, Pressure.tenFull⟩ 1
        (World.single memoryPath
          "some avg10=100.00 avg60=100.00 avg300=100.00 total=123456789012\nfull avg10=50.00 avg60=0.00 avg300=0.00 total=0\n")).1
      = -EINVAL
    ∧ (check_pressures ⟨some memoryPath, Pressure.tenFull⟩ 1
        (World.single memoryPath
          "some avg10=100.00 avg60=100.00 avg300=100.00 total=123456789012\nfull avg10=50.00 avg60=0.00 avg300=0.00 total=0\n")).2.stderr
      = ["Can't parse 'full' from /proc/pressure/memory\n"]
    ∧ (check_pressures ⟨some memoryPath, Pressure.unset⟩ 1
        (World.single memoryPath
          "some avg10=100.00 avg60=100.00 avg300=100.00 total=12345678901\nfull avg10=50.00 avg60=0.00 avg300=0.00 total=0\n")).1
      = 0
    ∧ (check_pressures ⟨some memoryPath, Pressure.unset⟩ 1
        (World.single memoryPath
          "some avg10=100.00 avg60=100.00 avg300=100.00 total=123456789012\nfull avg10=50.00 avg60=0.00 avg300=0.00 total=0\n")).1
      = -EINVAL := by
  refine ⟨?_, ?_, ?_, ?_, ?_⟩ <;> decide

/-- C4, counterexample: for the memory resource as the poll loop evaluates it
(`has_full = 1`) with `ten.some = 0.1f` the only set threshold, a source consisting of the
line `some avg10=0.05 avg60=0.00 avg300=0.00 total=0` (with or without its newline) does
not give Normal: the returned value is `-EINVAL`, not 0. -/
theorem one_line_source_below_threshold_is_error :
    (check_pressures ⟨some memoryPath, Pressure.tenSome⟩ 1
        (World.single memoryPath "some avg10=0.05 avg60=0.00 avg300=0.00 total=0\n")).1 ≠ 0
    ∧ (check_pressures ⟨some memoryPath, Pressure.tenSome⟩ 1
        (World.single memoryPath "some avg10=0.05 avg60=0.00 avg300=0.00 total=0")).1 ≠ 0 := by
  constructor <;> decide

/-- C4, amended: for the memory resource evaluated with `has_full = 1` and `ten.some = 0.1f`
the only set threshold, the one-line source `some avg10=50.00 avg60=0.00 avg300=0.00 total=0`
gives Alert; the one-line source `some avg10=0.05 avg60=0.00 avg300=0.00 total=0` gives the
Error `-EINVAL` with the premature-end-of-input report, because the `full` line is missing;
followed by the line `full avg10=0.00 avg60=0.00 avg300=0.00 total=0` it gives Normal. -/
theorem memory_scenario :
    (check_pressures ⟨some memoryPath, Pressure.tenSome⟩ 1
        (World.single memoryPath "some avg10=50.00 avg60=0.00 avg300=0.00 total=0\n")).1 = 1
    ∧ (check_pressures ⟨some memoryPath, Pressure.tenSome⟩ 1
        (World.single memoryPath "some avg10=0.05 avg60=0.00 avg300=0.00 total=0\n")).1
      = -EINVAL
    ∧ (check_pressures ⟨some memoryPath, Pressure.tenSome⟩ 1
        (World.single memoryPath "some avg10=0.05 avg60=0.00 avg300=0.00 total=0\n")).2.stderr
      = ["Premature EOF from /proc/pressure/memory\n"]
    ∧ (check_pressures ⟨some memoryPath, Pressure.tenSome⟩ 1
        (World.single memoryPath
          "some avg10=0.05 avg60=0.00 avg300=0.00 total=0\nfull avg10=0.00 avg60=0.00 avg300=0.00 total=0\n")).1
      = 0 := by
  refine ⟨?_, ?_, ?_, ?_⟩ <;> decide

/-- C6, counterexample: the `full` line `full avg10=5.00 avg300=1.00 total=9999` yields one
numeric field, not three, yet with `has_full` set and a first line whose `avg10` exceeds
the threshold `ten.some = 0.1f` the result is Alert (1), not an Error. -/
theorem malformed_full_line_after_alert :
    sscanf "full avg10=5.00 avg300=1.00 total=9999\n".toList PRESSURE_FORMAT
      = (1, [F32.ofRatio false 5 1])
    ∧ (check_pressures ⟨some memoryPath, Pressure.tenSome⟩ 1
        (World.single memoryPath
          "some avg10=50.00 avg60=0.00 avg300=0.00 total=0\nfull avg10=5.00 avg300=1.00 total=9999\n")).1
      = 1 := by
  constructor <;> decide

/-- C6, amended: a line that `check_pressures` reads and that does not yield exactly three
numeric fields makes it return the Error `-EINVAL`, never Alert, whatever the thresholds:
the first line always (no threshold is compared with the fields that did parse), and the
`full` line when `has_full` is set and the first line parses to values that exceed no set
`some` threshold, which are the cases in which the `full` line is read. -/
theorem check_pressures_unparseable (r : Resource) (has_full : Int) (w : World)
    (filename : String) (content line1 rest : List Char)
    (hname : r.filename = some filename)
    (hopen : w.files filename = Except.ok content)
    (hline1 : fgets PRESSURE_LINE_LEN content = some (line1, rest)) :
    ((sscanf line1 PRESSURE_FORMAT).1 ≠ 3 →
      check_pressures r has_full w
          = (-EINVAL, fprintf_stderr ("Can't parse 'some' from " ++ filename ++ "\n") w.opened)
        ∧ (check_pressures r has_full w).1 < 0)
    ∧ (∀ s10 s60 s300 line2 rest2,
        sscanf line1 PRESSURE_FORMAT = (3, [s10, s60, s300]) →
        someAlert r.thresholds s10 s60 s300 = false → has_full ≠ 0 →
        fgets PRESSURE_LINE_LEN rest = some (line2, rest2) →
        (sscanf line2 PRESSURE_FORMAT).1 ≠ 3 →
        check_pressures r has_full w
            = (-EINVAL, fprintf_stderr ("Can't parse 'full' from " ++ filename ++ "\n") w.opened)
          ∧ (check_pressures r has_full w).1 < 0) := by
  constructor
  · intro hbad
    rw [path_bad_some r has_full w filename content line1 rest hname hopen hline1 hbad]
    exact ⟨rfl, (by decide : -EINVAL < 0)⟩
  · intro s10 s60 s300 line2 rest2 hsome hs hf hline2 hbad
    rw [path_bad_full r has_full w filename content line1 rest line2 rest2 s10 s60 s300
      hname hopen hline1 hsome hs hf hline2 hbad]
    exact ⟨rfl, (by decide : -EINVAL < 0)⟩

/-- Witness for C6 (amended): the line `some avg10=5.00 avg300=1.00 total=9999` yields one
field
(5.0, above the threshold `ten.some = 0.1f`) and the result is the Error `-EINVAL`. -/
theorem check_pressures_unparseable_witness :
    sscanf "some avg10=5.00 avg300=1.00 total=9999\n".toList PRESSURE_FORMAT
      = (1, [F32.ofRatio false 5 1])
    ∧ F32.gt (F32.ofRatio false 5 1) Pressure.tenSome.ten.some = true
    ∧ (check_pressures ⟨some memoryPath, Pressure.tenSome⟩ 1
        (World.single memoryPath "some avg10=5.00 avg300=1.00 total=9999\n")).1 < 0 :=
  ⟨by decide, by decide,
    ((check_pressures_unparseable ⟨some memoryPath, Pressure.tenSome⟩ 1
      (World.single memoryPath "some avg10=5.00 avg300=1.00 total=9999\n") memoryPath
      "some avg10=5.00 avg300=1.00 total=9999\n".toList
      "some avg10=5.00 avg300=1.00 total=9999\n".toList []
      rfl (by simp [World.single, World.files]) (by decide)).1 (by decide)).2⟩

/-! ### Scanning a well-formed line -/

theorem isdigit_cases (c : Char) (h : isdigit c = true) :
    c = '0' ∨ c = '1' ∨ c = '2' ∨ c = '3' ∨ c = '4' ∨ c = '5' ∨ c = '6' ∨ c = '7'
      ∨ c = '8' ∨ c = '9' := by
  have hb : 48 ≤ c.toNat ∧ c.toNat ≤ 57 := by
    unfold isdigit at h
    simpa using h
  have hc : c = Char.ofNat c.toNat := (Char.ofNat_toNat c).symm
  obtain ⟨h1, h2⟩ := hb
  generalize c.toNat = n at hc h1 h2
  interval_cases n <;> simp [hc]

/-- What the scanner needs to know about a digit. -/
theorem isdigit_facts (c : Char) (h : isdigit c = true) :
    isspace c = false ∧ c ≠ '-' ∧ c ≠ '+' ∧ c ≠ '.' ∧ c ≠ Char.ofNat 0
      ∧ (tolower c = 'i' || tolower c = 'n') = false
      ∧ ¬ tolower c = 'x' ∧ ¬ tolower c = 'e' := by
  rcases isdigit_cases c h with h | h | h | h | h | h | h | h | h | h <;> subst h <;> decide

theorem takeWhile_digits (ds rest : List Char) (hds : ∀ c ∈ ds, isdigit c = true)
    (hrest : ∀ c t, rest = c :: t → isdigit c = false) :
    (ds ++ rest).takeWhile isdigit = ds ∧ (ds ++ rest).dropWhile isdigit = rest := by
  have hr : rest.takeWhile isdigit = [] ∧ rest.dropWhile isdigit = rest := by
    cases rest with
    | nil => exact ⟨rfl, rfl⟩
    | cons c t =>
      have := hrest c t rfl
      simp [List.takeWhile_cons, List.dropWhile_cons, this]
  rw [List.takeWhile_append_of_pos hds, List.dropWhile_append_of_pos hds, hr.1, hr.2]
  simp

theorem decimalValue_plain (neg : Bool) (ds : List Char) (k : Nat) :
    decimalValue neg ds k false 0 = F32.ofRatio neg (digitsVal 10 ds) (10 ^ k) := by
  unfold decimalValue
  by_cases hk : k = 0
  · subst hk; simp
  · have : ¬ k ≤ 0 := by omega
    simp [this]

/-- Scanning a decimal numeral that is followed by a blank. -/
theorem scanDecimal_numeral (ip : List Char) (fp : Option (List Char)) (rest : List Char)
    (h : IsNumeral ip fp) :
    scanDecimal false (numeral ip fp ++ ' ' :: rest)
      = some (numeralValue ip fp, ' ' :: rest) := by
  obtain ⟨hne, hip, hfp⟩ := h
  have hipe : ip.isEmpty = false := by
    cases ip with
    | nil => exact absurd rfl hne
    | cons _ _ => rfl
  cases fp with
  | none =>
    have hsp : ∀ c t, ' ' :: rest = c :: t → isdigit c = false := by
      intro c t hct
      have : c = ' ' := by injection hct with h1 _; exact h1.symm
      subst this; decide
    obtain ⟨h1, h2⟩ := takeWhile_digits ip (' ' :: rest) hip hsp
    unfold scanDecimal numeral numeralValue
    simp only [h1, h2, hipe]
    simp [decimalValue_plain, (by decide : ¬ tolower ' ' = 'e')]
  | some f =>
    have hf := hfp f rfl
    have hdot : ∀ c t, '.' :: (f ++ ' ' :: rest) = c :: t → isdigit c = false := by
      intro c t hct
      have : c = '.' := by injection hct with h1 _; exact h1.symm
      subst this; decide
    have hsp : ∀ c t, ' ' :: rest = c :: t → isdigit c = false := by
      intro c t hct
      have : c = ' ' := by injection hct with h1 _; exact h1.symm
      subst this; decide
    obtain ⟨h1, h2⟩ := takeWhile_digits ip ('.' :: (f ++ ' ' :: rest)) hip hdot
    obtain ⟨h3, h4⟩ := takeWhile_digits f (' ' :: rest) hf hsp
    have hcs : numeral ip (some f) ++ ' ' :: rest = ip ++ '.' :: (f ++ ' ' :: rest) := by
      simp [numeral]
    unfold scanDecimal numeralValue
    rw [hcs]
    simp only [h1, h2, h3, h4, hipe]
    simp [decimalValue_plain, (by decide : ¬ tolower ' ' = 'e')]
theorem scanFloatBody_digit (d : Char) (T : List Char) (hd : isdigit d = true)
    (hT : ∀ x v, T = x :: v → ¬ tolower x = 'x') :
    scanFloatBody false (d :: T) = scanDecimal false (d :: T) := by
  obtain ⟨_, _, _, _, _, hin, _, _⟩ := isdigit_facts d hd
  unfold scanFloatBody
  simp only [hin]
  cases T with
  | nil => simp
  | cons x v =>
    have := hT x v rfl
    simp [this]

/-- The conversion `%f` on a decimal numeral that is followed by a blank stores the value of
the numeral and leaves the blank unread. -/
theorem scan_f_numeral (ip : List Char) (fp : Option (List Char)) (rest : List Char)
    (h : IsNumeral ip fp) :
    scan_f (numeral ip fp ++ ' ' :: rest)
      = Step.ok (some (numeralValue ip fp)) (' ' :: rest) := by
  have hdec := scanDecimal_numeral ip fp rest h
  obtain ⟨hne, hip, hfp⟩ := h
  cases ip with
  | nil => exact absurd rfl hne
  | cons d ip2 =>
    have hd : isdigit d = true := hip d (List.mem_cons_self _ _)
    obtain ⟨hsp, hminus, hplus, _, _, _, _, _⟩ := isdigit_facts d hd
    have hshape : numeral (d :: ip2) fp ++ ' ' :: rest
        = d :: (numeral ip2 fp ++ ' ' :: rest) := by
      cases fp <;> simp [numeral]
    have hT : ∀ x v, numeral ip2 fp ++ ' ' :: rest = x :: v → ¬ tolower x = 'x' := by
      intro x v hxv
      cases ip2 with
      | nil =>
        cases fp with
        | none =>
          have : x = ' ' := by
            simp only [numeral, List.nil_append] at hxv
            injection hxv with h1 _
            exact h1.symm
          subst this; decide
        | some f =>
          have : x = '.' := by
            simp only [numeral, List.nil_append, List.cons_append] at hxv
            injection hxv with h1 _
            exact h1.symm
          subst this; decide
      | cons e ip3 =>
        have hx : x = e := by
          cases fp <;> simp only [numeral, List.cons_append] at hxv <;>
            (injection hxv with h1 _; exact h1.symm)
        have he : isdigit e = true :=
          hip e (List.mem_cons_of_mem _ (List.mem_cons_self _ _))
        rw [hx]
        exact (isdigit_facts e he).2.2.2.2.2.2.1
    rw [hshape] at hdec ⊢
    unfold scan_f
    rw [List.dropWhile_cons_of_neg (by simp [hsp])]
    simp only [hminus, hplus, if_false]
    rw [scanFloatBody_digit d _ hd hT, hdec]

/-! ### Executing the format on a well-formed line -/

theorem runFormat_lit (c : Char) (ds : List Directive) (rest : List Char) (acc : List F32) :
    runFormat (Directive.lit c :: ds) (c :: rest) acc true = runFormat ds rest acc true := by
  rw [runFormat]
  simp [runDirective]

theorem runFormat_blank (ds : List Directive) (c : Char) (rest : List Char) (acc : List F32)
    (hc : isspace c = false) :
    runFormat (Directive.space :: ds) (' ' :: c :: rest) acc true
      = runFormat ds (c :: rest) acc true := by
  rw [runFormat]
  have h1 : isspace ' ' = true := by decide
  simp [runDirective, List.dropWhile_cons, h1, hc]

theorem runFormat_token (ds : List Directive) (tok rest : List Char) (acc : List F32)
    (conv : Bool) (h : IsToken tok) :
    runFormat (Directive.skipStr :: ds) (tok ++ ' ' :: rest) acc conv
      = runFormat ds (' ' :: rest) acc true := by
  obtain ⟨hne, htok⟩ := h
  cases tok with
  | nil => exact absurd rfl hne
  | cons a tok2 =>
    have ha : isspace a = false := (htok a (List.mem_cons_self _ _)).1
    have hall : ∀ c ∈ a :: tok2, (fun c => !isspace c) c = true := by
      intro c hc
      simp [(htok c hc).1]
    have hdrop : (a :: (tok2 ++ ' ' :: rest)).dropWhile (fun c => !isspace c)
        = ' ' :: rest := by
      rw [← List.cons_append, List.dropWhile_append_of_pos hall]
      simp [List.dropWhile_cons, (by decide : isspace ' ' = true)]
    have hdw : (a :: (tok2 ++ ' ' :: rest)).dropWhile isspace
        = a :: (tok2 ++ ' ' :: rest) := List.dropWhile_cons_of_neg (by simp [ha])
    have hstep : runDirective Directive.skipStr ((a :: tok2) ++ ' ' :: rest)
        = Step.ok none (' ' :: rest) := by
      simp only [runDirective, List.cons_append, hdw, hdrop]
    rw [runFormat, hstep]
    simp

theorem runFormat_numeral (ds : List Directive) (ip : List Char) (fp : Option (List Char))
    (rest : List Char) (acc : List F32) (h : IsNumeral ip fp) :
    runFormat (Directive.float :: ds) (numeral ip fp ++ ' ' :: rest) acc true
      = runFormat ds (' ' :: rest) (acc ++ [numeralValue ip fp]) true := by
  rw [runFormat]
  have hstep : runDirective Directive.float (numeral ip fp ++ ' ' :: rest)
      = Step.ok (some (numeralValue ip fp)) (' ' :: rest) := by
    unfold runDirective
    exact scan_f_numeral ip fp rest h
  rw [hstep]

/-- Directives that store nothing cannot change the result once a conversion has
completed. -/
theorem runFormat_no_float (ds : List Directive) (hds : Directive.float ∉ ds) :
    ∀ (inp : List Char) (acc : List F32),
      runFormat ds inp acc true = ((acc.length : Int), acc) := by
  induction ds with
  | nil => intro inp acc; rfl
  | cons d ds ih =>
    intro inp acc
    have hd : d ≠ Directive.float := fun h => hds (h ▸ List.mem_cons_self _ _)
    have hrest : Directive.float ∉ ds := fun h => hds (List.mem_cons_of_mem _ h)
    rw [runFormat]
    cases hstep : runDirective d inp with
    | ok assigned rest =>
      cases assigned with
      | none => simpa using ih hrest rest acc
      | some v =>
        exfalso
        cases d with
        | space => simp [runDirective] at hstep
        | lit c =>
          cases inp with
          | nil => simp [runDirective] at hstep
          | cons e r =>
            simp only [runDirective] at hstep
            split at hstep <;> simp at hstep
        | skipStr =>
          simp only [runDirective] at hstep
          split at hstep <;> simp at hstep
        | float => exact hd rfl
    | matchFail => rfl
    | inputFail => rfl
theorem cstr_append (xs ys : List Char) (h : ∀ c ∈ xs, c ≠ Char.ofNat 0) :
    cstr (xs ++ ys) = xs ++ cstr ys := by
  unfold cstr
  rw [List.takeWhile_append_of_pos]
  intro c hc
  simpa using h c hc

theorem numeral_no_nul (ip : List Char) (fp : Option (List Char)) (h : IsNumeral ip fp) :
    ∀ c ∈ numeral ip fp, c ≠ Char.ofNat 0 := by
  obtain ⟨_, hip, hfp⟩ := h
  intro c hc
  cases fp with
  | none => exact (isdigit_facts c (hip c hc)).2.2.2.2.1
  | some f =>
    simp only [numeral, List.mem_append, List.mem_cons] at hc
    rcases hc with hc | hc | hc
    · exact (isdigit_facts c (hip c hc)).2.2.2.2.1
    · subst hc; decide
    · exact (isdigit_facts c (hfp f rfl c hc)).2.2.2.2.1

/-- The format of `check_pressures`, decoded. -/
theorem parseFormat_pressure :
    parseFormat PRESSURE_FORMAT.toList
      = [Directive.skipStr, Directive.space, Directive.lit 'a', Directive.lit 'v',
          Directive.lit 'g', Directive.lit '1', Directive.lit '0', Directive.lit '=',
          Directive.float, Directive.space, Directive.lit 'a', Directive.lit 'v',
          Directive.lit 'g', Directive.lit '6', Directive.lit '0', Directive.lit '=',
          Directive.float, Directive.space, Directive.lit 'a', Directive.lit 'v',
          Directive.lit 'g', Directive.lit '3', Directive.lit '0', Directive.lit '0',
          Directive.lit '=', Directive.float, Directive.space, Directive.lit 't',
          Directive.lit 'o', Directive.lit 't', Directive.lit 'a', Directive.lit 'l',
          Directive.lit '=', Directive.skipStr] := by
  decide

/-- `sscanf` with the format of `check_pressures` on a line of the shape
`<label> avg10=<a> avg60=<b> avg300=<c> total=<t>` returns 3 and stores the values of the
three numerals, whatever the label and whatever follows `total=`. -/
theorem sscanf_pressureLine (label t : List Char) (ip1 ip2 ip3 : List Char)
    (fp1 fp2 fp3 : Option (List Char)) (hl : IsToken label)
    (h1 : IsNumeral ip1 fp1) (h2 : IsNumeral ip2 fp2) (h3 : IsNumeral ip3 fp3) :
    sscanf (pressureLine label (numeral ip1 fp1) (numeral ip2 fp2) (numeral ip3 fp3) t)
        PRESSURE_FORMAT
      = (3, [numeralValue ip1 fp1, numeralValue ip2 fp2, numeralValue ip3 fp3]) := by
  have e1 : " avg10=".toList = [' ', 'a', 'v', 'g', '1', '0', '='] := rfl
  have e2 : " avg60=".toList = [' ', 'a', 'v', 'g', '6', '0', '='] := rfl
  have e3 : " avg300=".toList = [' ', 'a', 'v', 'g', '3', '0', '0', '='] := rfl
  have e4 : " total=".toList = [' ', 't', 'o', 't', 'a', 'l', '='] := rfl
  have hshape : pressureLine label (numeral ip1 fp1) (numeral ip2 fp2) (numeral ip3 fp3) t
      = label ++ ([' ', 'a', 'v', 'g', '1', '0', '='] ++ (numeral ip1 fp1
        ++ ([' ', 'a', 'v', 'g', '6', '0', '='] ++ (numeral ip2 fp2
        ++ ([' ', 'a', 'v', 'g', '3', '0', '0', '='] ++ (numeral ip3 fp3
        ++ ([' ', 't', 'o', 't', 'a', 'l', '='] ++ t))))))) := by
    unfold pressureLine
    rw [e1, e2, e3, e4]
    simp only [List.append_assoc]
  have hc : cstr (pressureLine label (numeral ip1 fp1) (numeral ip2 fp2) (numeral ip3 fp3) t)
      = label ++ ' ' :: 'a' :: 'v' :: 'g' :: '1' :: '0' :: '=' :: (numeral ip1 fp1
        ++ ' ' :: 'a' :: 'v' :: 'g' :: '6' :: '0' :: '=' :: (numeral ip2 fp2
        ++ ' ' :: 'a' :: 'v' :: 'g' :: '3' :: '0' :: '0' :: '=' :: (numeral ip3 fp3
        ++ ' ' :: 't' :: 'o' :: 't' :: 'a' :: 'l' :: '=' :: cstr t))) := by
    rw [hshape, cstr_append _ _ (fun c hc => (hl.2 c hc).2),
      cstr_append _ _ (by decide), cstr_append _ _ (numeral_no_nul ip1 fp1 h1),
      cstr_append _ _ (by decide), cstr_append _ _ (numeral_no_nul ip2 fp2 h2),
      cstr_append _ _ (by decide), cstr_append _ _ (numeral_no_nul ip3 fp3 h3),
      cstr_append _ _ (by decide)]
    simp only [List.cons_append, List.nil_append]
  unfold sscanf
  rw [parseFormat_pressure, hc, runFormat_token _ label _ _ _ hl,
    runFormat_blank _ 'a' _ _ (by decide),
    runFormat_lit, runFormat_lit, runFormat_lit, runFormat_lit, runFormat_lit, runFormat_lit,
    runFormat_numeral _ ip1 fp1 _ _ h1,
    runFormat_blank _ 'a' _ _ (by decide),
    runFormat_lit, runFormat_lit, runFormat_lit, runFormat_lit, runFormat_lit, runFormat_lit,
    runFormat_numeral _ ip2 fp2 _ _ h2,
    runFormat_blank _ 'a' _ _ (by decide),
    runFormat_lit, runFormat_lit, runFormat_lit, runFormat_lit, runFormat_lit, runFormat_lit,
    runFormat_lit,
    runFormat_numeral _ ip3 fp3 _ _ h3,
    runFormat_no_float _ (by decide)]
  rfl

theorem fgets_take_line (line rest : List Char) (hnl : '\n' ∉ line) :
    ∀ k, line.length < k → fgets_take k (line ++ '\n' :: rest) = (line ++ ['\n'], rest) := by
  induction line with
  | nil =>
    intro k hk
    cases k with
    | zero => exact absurd hk (by simp)
    | succ k => simp [fgets_take]
  | cons a line ih =>
    intro k hk
    cases k with
    | zero => exact absurd hk (by simp)
    | succ k =>
      have ha : a ≠ '\n' := fun h => hnl (h ▸ List.mem_cons_self _ _)
      have hrest : '\n' ∉ line := fun h => hnl (List.mem_cons_of_mem _ h)
      have hk2 : line.length < k := by simpa using hk
      simp [fgets_take, ha, ih hrest k hk2]

/-- A line that fits the buffer is stored whole, newline included. -/
theorem fgets_line (size : Nat) (line rest : List Char) (hnl : '\n' ∉ line)
    (hfit : line.length + 2 ≤ size) :
    fgets size (line ++ '\n' :: rest) = some (line ++ ['\n'], rest) := by
  have h := fgets_take_line line rest hnl (size - 1) (by omega)
  cases hl : line ++ '\n' :: rest with
  | nil => simp at hl
  | cons a l =>
    rw [hl] at h
    simp [fgets, h]
theorem numeral_no_newline (ip : List Char) (fp : Option (List Char)) (h : IsNumeral ip fp) :
    '\n' ∉ numeral ip fp := by
  obtain ⟨_, hip, hfp⟩ := h
  intro hc
  have hnd : isdigit '\n' = false := by decide
  cases fp with
  | none =>
    have := hip _ hc
    rw [hnd] at this
    exact absurd this (by decide)
  | some f =>
    simp only [numeral, List.mem_append, List.mem_cons] at hc
    rcases hc with hc | hc | hc
    · have := hip _ hc
      rw [hnd] at this
      exact absurd this (by decide)
    · exact absurd hc (by decide)
    · have := hfp f rfl _ hc
      rw [hnd] at this
      exact absurd this (by decide)

theorem pressureLine_no_newline (label t : List Char) (ip1 ip2 ip3 : List Char)
    (fp1 fp2 fp3 : Option (List Char)) (hl : IsToken label)
    (h1 : IsNumeral ip1 fp1) (h2 : IsNumeral ip2 fp2) (h3 : IsNumeral ip3 fp3)
    (ht : '\n' ∉ t) :
    '\n' ∉ pressureLine label (numeral ip1 fp1) (numeral ip2 fp2) (numeral ip3 fp3) t := by
  have hlab : '\n' ∉ label := by
    intro hc
    have := (hl.2 _ hc).1
    exact absurd this (by decide)
  have n1 := numeral_no_newline ip1 fp1 h1
  have n2 := numeral_no_newline ip2 fp2 h2
  have n3 := numeral_no_newline ip3 fp3 h3
  have e1 : '\n' ∉ " avg10=".toList := by decide
  have e2 : '\n' ∉ " avg60=".toList := by decide
  have e3 : '\n' ∉ " avg300=".toList := by decide
  have e4 : '\n' ∉ " total=".toList := by decide
  unfold pressureLine
  simp only [List.mem_append, not_or]
  exact ⟨⟨⟨⟨⟨⟨⟨⟨hlab, e1⟩, n1⟩, e2⟩, n2⟩, e3⟩, n3⟩, e4⟩, ht⟩

/-- C7: a line of the shape `<label> avg10=<a> avg60=<b> avg300=<c> total=<t>` with decimal
numerals `a`, `b`, `c` that fits the line buffer (at most 62 characters before its newline)
is stored whole by `fgets`, and the `sscanf` call of `check_pressures` returns 3 on it and
stores the values of `a`, `b`, `c` (the nearest `float`s) as ten, sixty, three_hundred. In
particular the two-line record of the specification, read with `has_full` set, yields the
samples (5, 3, 1) and (2, 1, 0.5) and no error. -/
theorem pressure_line_parses (label t rest : List Char) (ip1 ip2 ip3 : List Char)
    (fp1 fp2 fp3 : Option (List Char)) (hl : IsToken label)
    (h1 : IsNumeral ip1 fp1) (h2 : IsNumeral ip2 fp2) (h3 : IsNumeral ip3 fp3)
    (ht : '\n' ∉ t)
    (hfit : (pressureLine label (numeral ip1 fp1) (numeral ip2 fp2) (numeral ip3 fp3)
      t).length + 2 ≤ PRESSURE_LINE_LEN) :
    (fgets PRESSURE_LINE_LEN
        (pressureLine label (numeral ip1 fp1) (numeral ip2 fp2) (numeral ip3 fp3) t
          ++ '\n' :: rest)
      = some (pressureLine label (numeral ip1 fp1) (numeral ip2 fp2) (numeral ip3 fp3) t
          ++ ['\n'], rest)
    ∧ sscanf (pressureLine label (numeral ip1 fp1) (numeral ip2 fp2) (numeral ip3 fp3) t
          ++ ['\n']) PRESSURE_FORMAT
      = (3, [numeralValue ip1 fp1, numeralValue ip2 fp2, numeralValue ip3 fp3]))
    ∧ (fgets PRESSURE_LINE_LEN sampleRecord.toList
        = some ("some avg10=5.00 avg60=3.00 avg300=1.00 total=9999\n".toList,
            "full avg10=2.00 avg60=1.00 avg300=0.50 total=9999\n".toList)
      ∧ sscanf "some avg10=5.00 avg60=3.00 avg300=1.00 total=9999\n".toList PRESSURE_FORMAT
        = (3, [F32.ofRatio false 5 1, F32.ofRatio false 3 1, F32.ofRatio false 1 1])
      ∧ fgets PRESSURE_LINE_LEN "full avg10=2.00 avg60=1.00 avg300=0.50 total=9999\n".toList
        = some ("full avg10=2.00 avg60=1.00 avg300=0.50 total=9999\n".toList, [])
      ∧ sscanf "full avg10=2.00 avg60=1.00 avg300=0.50 total=9999\n".toList PRESSURE_FORMAT
        = (3, [F32.ofRatio false 2 1, F32.ofRatio false 1 1, F32.ofRatio false 1 2])
      ∧ (check_pressures ⟨some memoryPath, Pressure.unset⟩ 1
          (World.single memoryPath sampleRecord)).1 = 0
      ∧ (check_pressures ⟨some memoryPath, Pressure.unset⟩ 1
          (World.single memoryPath sampleRecord)).2.stderr = []) := by
  refine ⟨⟨?_, ?_⟩, by decide, by decide, by decide, by decide, by decide, by decide⟩
  · exact fgets_line _ _ _
      (pressureLine_no_newline label t ip1 ip2 ip3 fp1 fp2 fp3 hl h1 h2 h3 ht) hfit
  · have hassoc : pressureLine label (numeral ip1 fp1) (numeral ip2 fp2) (numeral ip3 fp3) t
        ++ ['\n']
        = pressureLine label (numeral ip1 fp1) (numeral ip2 fp2) (numeral ip3 fp3)
            (t ++ ['\n']) := by
      unfold pressureLine
      simp only [List.append_assoc]
    rw [hassoc]
    exact sscanf_pressureLine label _ ip1 ip2 ip3 fp1 fp2 fp3 hl h1 h2 h3

/-- Witness for C7: the `some` line of the record of the specification, as the instance
label `some`, numerals `5.00`, `3.00`, `1.00`, total `9999`. -/
theorem pressure_line_parses_witness :
    fgets PRESSURE_LINE_LEN sampleRecord.toList
        = some ("some avg10=5.00 avg60=3.00 avg300=1.00 total=9999\n".toList,
            "full avg10=2.00 avg60=1.00 avg300=0.50 total=9999\n".toList)
    ∧ sscanf "some avg10=5.00 avg60=3.00 avg300=1.00 total=9999\n".toList PRESSURE_FORMAT
        = (3, [numeralValue ['5'] (some ['0', '0']), numeralValue ['3'] (some ['0', '0']),
            numeralValue ['1'] (some ['0', '0'])]) :=
  (pressure_line_parses "some".toList "9999".toList
    "full avg10=2.00 avg60=1.00 avg300=0.50 total=9999\n".toList
    ['5'] ['3'] ['1'] (some ['0', '0']) (some ['0', '0']) (some ['0', '0'])
    (by unfold IsToken; decide) (by unfold IsNumeral; simp; decide)
    (by unfold IsNumeral; simp; decide) (by unfold IsNumeral; simp; decide)
    (by decide) (by decide)).1

/-! ### Resolving the pressure files -/

theorem print_d_length (u : Nat) : (print_d u).length ≤ 11 := by
  unfold print_d
  split
  · have := Nat.repr_length (u % 4294967296) 10 (by decide) (by omega)
    omega
  · have := Nat.repr_length (4294967296 - u % 4294967296) 10 (by decide) (by omega)
    rw [String.length_append]
    have h1 : "-".length = 1 := rfl
    omega

theorem snprintf_fits (size : Nat) (text : String) (h : text.length + 1 ≤ size) :
    snprintf size text = text := by
  unfold snprintf
  have : text.toList.take (size - 1) = text.toList := by
    apply List.take_of_length_le
    have : text.toList.length = text.length := rfl
    omega
  rw [this]
  rfl

theorem kind_length (r : String) (hr : r ∈ ["cpu", "memory", "io"]) : r.length ≤ 6 := by
  simp only [List.mem_cons, List.mem_singleton, List.not_mem_nil, or_false] at hr
  rcases hr with h | h | h <;> subst h <;> decide

/-- Both candidate paths of a resource kind fit in `PATH_MAX` bytes. -/
theorem candidate_paths_fit (u : Nat) (r : String) (hr : r ∈ ["cpu", "memory", "io"]) :
    snprintf PATH_MAX
        ("/sys/fs/cgroup/user.slice/user-" ++ print_d u ++ ".slice/" ++ r ++ ".pressure")
      = "/sys/fs/cgroup/user.slice/user-" ++ print_d u ++ ".slice/" ++ r ++ ".pressure"
    ∧ snprintf PATH_MAX ("/proc/pressure/" ++ r) = "/proc/pressure/" ++ r := by
  have hu := print_d_length u
  have hk := kind_length r hr
  have l1 : "/sys/fs/cgroup/user.slice/user-".length = 31 := by decide
  have l2 : ".slice/".length = 7 := by decide
  have l3 : ".pressure".length = 9 := by decide
  have l4 : "/proc/pressure/".length = 15 := by decide
  constructor
  · apply snprintf_fits
    simp only [String.length_append, l1, l2, l3, PATH_MAX]
    omega
  · apply snprintf_fits
    simp only [String.length_append, l4, PATH_MAX]
    omega

/-- The result of `get_pressure_file` when its allocation succeeds. -/
theorem get_pressure_file_ok (sys : Sys) (n : Nat) (r : String)
    (hr : r ∈ ["cpu", "memory", "io"]) (halloc : sys.alloc n = true) :
    get_pressure_file sys n r
      = Except.ok
          (if sys.readable ("/sys/fs/cgroup/user.slice/user-" ++ print_d sys.uid ++ ".slice/"
              ++ r ++ ".pressure") = true then
            some ("/sys/fs/cgroup/user.slice/user-" ++ print_d sys.uid ++ ".slice/" ++ r
              ++ ".pressure")
          else if sys.readable ("/proc/pressure/" ++ r) = true then
            some ("/proc/pressure/" ++ r)
          else none) := by
  obtain ⟨h1, h2⟩ := candidate_paths_fit sys.uid r hr
  unfold get_pressure_file
  simp only [halloc, h1, h2, Bool.not_true, Bool.false_eq_true, if_false]
  by_cases ha : sys.readable ("/sys/fs/cgroup/user.slice/user-" ++ print_d sys.uid
      ++ ".slice/" ++ r ++ ".pressure") = true
  · rw [if_pos ha, if_pos ha]
  · rw [if_neg ha, if_neg ha]
    by_cases hb : sys.readable ("/proc/pressure/" ++ r) = true
    · rw [if_pos hb, if_pos hb]
    · rw [if_neg hb, if_neg hb]

/-- The resolution order of `get_pressure_file` for a resource kind name among cpu, memory,
io, its allocation succeeding: the user-scoped path as the code prints it (the user id
through `%d`, its decimal numeral for ids below 2^31) when that path is readable,
otherwise the system-global path when that path is readable, otherwise none, as a normal
return. When the allocations of `init_config` succeed it completes, with each of the three
filenames bound to what `get_pressure_file` returns for that kind. -/
theorem get_pressure_file_resolves (sys : Sys) (n : Nat) (r : String)
    (hr : r ∈ ["cpu", "memory", "io"]) (halloc : sys.alloc n = true) :
    (sys.readable ("/sys/fs/cgroup/user.slice/user-" ++ print_d sys.uid ++ ".slice/" ++ r
          ++ ".pressure") = true →
      get_pressure_file sys n r
        = Except.ok (some ("/sys/fs/cgroup/user.slice/user-" ++ print_d sys.uid ++ ".slice/"
            ++ r ++ ".pressure")))
    ∧ (sys.readable ("/sys/fs/cgroup/user.slice/user-" ++ print_d sys.uid ++ ".slice/" ++ r
          ++ ".pressure") = false →
        sys.readable ("/proc/pressure/" ++ r) = true →
        get_pressure_file sys n r = Except.ok (some ("/proc/pressure/" ++ r)))
    ∧ (sys.readable ("/sys/fs/cgroup/user.slice/user-" ++ print_d sys.uid ++ ".slice/" ++ r
          ++ ".pressure") = false →
        sys.readable ("/proc/pressure/" ++ r) = false →
        get_pressure_file sys n r = Except.ok none)
    ∧ (sys.uid < 2147483648 → print_d sys.uid = toString sys.uid)
    ∧ ((∀ i, i ≤ 3 → sys.alloc i = true) →
        ∃ c, init_config sys = Except.ok c
          ∧ get_pressure_file sys 1 "cpu" = Except.ok c.cpu.filename
          ∧ get_pressure_file sys 2 "memory" = Except.ok c.memory.filename
          ∧ get_pressure_file sys 3 "io" = Except.ok c.io.filename) := by
  have hok := get_pressure_file_ok sys n r hr halloc
  refine ⟨?_, ?_, ?_, ?_, ?_⟩
  · intro h1
    rw [hok, if_pos h1]
  · intro h1 h2
    rw [hok, if_neg (by simp [h1]), if_pos h2]
  · intro h1 h2
    rw [hok, if_neg (by simp [h1]), if_neg (by simp [h2])]
  · intro hu
    unfold print_d
    have : sys.uid % 4294967296 = sys.uid := Nat.mod_eq_of_lt (by omega)
    rw [this, if_pos hu]
    rfl
  · intro hall
    have hc := get_pressure_file_ok sys 1 "cpu" (by decide) (hall 1 (by decide))
    have hm := get_pressure_file_ok sys 2 "memory" (by decide) (hall 2 (by decide))
    have hi := get_pressure_file_ok sys 3 "io" (by decide) (hall 3 (by decide))
    have h0 := hall 0 (by decide)
    unfold init_config
    rw [hc, hm, hi]
    simp only [h0]
    exact ⟨_, rfl, rfl, rfl, rfl⟩

/-- C8, the code at the failing input: for the user id 3000000000 the slice path
`/sys/fs/cgroup/user.slice/user-3000000000.slice/cpu.pressure` is readable, but `%d` prints
the `uid_t` as the negative number -1294967296, the path probed is
`user--1294967296.slice`, and `get_pressure_file` returns the system-global path, which
`init_config` binds; for the user id 1000 in the same situation it returns the slice
path. -/
theorem get_pressure_file_signed_uid :
    Sys.largeUid.readable "/sys/fs/cgroup/user.slice/user-3000000000.slice/cpu.pressure"
      = true
    ∧ print_d Sys.largeUid.uid = "-1294967296"
    ∧ get_pressure_file Sys.largeUid 1 "cpu" = Except.ok (some "/proc/pressure/cpu")
    ∧ init_config Sys.largeUid
      = Except.ok ⟨⟨some "/proc/pressure/cpu", Pressure.tenSome⟩,
          ⟨none, Pressure.sixtySome⟩, ⟨none, Pressure.unset⟩⟩
    ∧ get_pressure_file Sys.smallUid 1 "cpu"
      = Except.ok (some "/sys/fs/cgroup/user.slice/user-1000.slice/cpu.pressure") := by
  refine ⟨by decide, by decide, ?_, ?_, ?_⟩
  · rw [get_pressure_file_ok Sys.largeUid 1 "cpu" (by decide) rfl,
      if_neg (by decide), if_pos (by decide)]
    rfl
  · have hc := get_pressure_file_ok Sys.largeUid 1 "cpu" (by decide) rfl
    have hm := get_pressure_file_ok Sys.largeUid 2 "memory" (by decide) rfl
    have hi := get_pressure_file_ok Sys.largeUid 3 "io" (by decide) rfl
    rw [if_neg (by decide), if_pos (by decide)] at hc
    rw [if_neg (by decide), if_neg (by decide)] at hm
    rw [if_neg (by decide), if_neg (by decide)] at hi
    unfold init_config
    rw [hc, hm, hi]
    rfl
  · rw [get_pressure_file_ok Sys.smallUid 1 "cpu" (by decide) rfl, if_pos (by decide)]
    rfl

/-! ### Streams and diagnostics -/

/-- Every return of `check_pressures` that follows a successful `fopen` leaves the world
with one more open stream and at most one more line on `stderr`. -/
theorem check_pressures_after_open (r : Resource) (has_full : Int) (w : World)
    (filename : String) (content : List Char)
    (hname : r.filename = some filename) (hopen : w.files filename = Except.ok content) :
    (check_pressures r has_full w).2 = w.opened
      ∨ ∃ text, (check_pressures r has_full w).2 = fprintf_stderr text w.opened := by
  cases hl1 : fgets PRESSURE_LINE_LEN content with
  | none =>
    right
    exact ⟨_, by rw [path_eof_some r has_full w filename content hname hopen hl1]⟩
  | some p =>
    obtain ⟨line1, rest⟩ := p
    by_cases hp : (sscanf line1 PRESSURE_FORMAT).1 = 3
    · obtain ⟨a, b, c, habc⟩ := sscanf_three _ _ hp
      cases hs : someAlert r.thresholds a b c with
      | true =>
        left
        rw [path_alert_some r has_full w filename content line1 rest a b c
          hname hopen hl1 habc hs]
      | false =>
        by_cases hf : has_full = 0
        · left
          rw [path_normal_some r has_full w filename content line1 rest a b c
            hname hopen hl1 habc hs hf]
        · cases hl2 : fgets PRESSURE_LINE_LEN rest with
          | none =>
            right
            exact ⟨_, by rw [path_eof_full r has_full w filename content line1 rest a b c
              hname hopen hl1 habc hs hf hl2]⟩
          | some q =>
            obtain ⟨line2, rest2⟩ := q
            by_cases hq : (sscanf line2 PRESSURE_FORMAT).1 = 3
            · obtain ⟨d, e, f, hdef⟩ := sscanf_three _ _ hq
              left
              rw [path_full r has_full w filename content line1 rest line2 rest2 a b c d e f
                hname hopen hl1 habc hs hf hl2 hdef]
            · right
              exact ⟨_, by rw [path_bad_full r has_full w filename content line1 rest line2
                rest2 a b c hname hopen hl1 habc hs hf hl2 hq]⟩
    · right
      exact ⟨_, by rw [path_bad_some r has_full w filename content line1 rest
        hname hopen hl1 hp]⟩

/-- A call of `check_pressures` whose `fopen` succeeds returns with one more open stream. -/
theorem check_pressures_open_streams (r : Resource) (has_full : Int) (w : World)
    (filename : String) (content : List Char)
    (hname : r.filename = some filename) (hopen : w.files filename = Except.ok content) :
    (check_pressures r has_full w).2.open_streams = w.open_streams + 1 := by
  rcases check_pressures_after_open r has_full w filename content hname hopen with h | ⟨t, h⟩
  · rw [h]; rfl
  · rw [h]; rfl

/-- C9, the code at the failing input: the source never calls `fclose`. One call of
`check_pressures` on the record of the specification returns Normal with one stream open
where none was open before; one poll cycle over three bound resources leaves three streams
open, two cycles leave six. -/
theorem check_pressures_leaks_stream :
    (World.single memoryPath sampleRecord).open_streams = 0
    ∧ (check_pressures ⟨some memoryPath, Pressure.unset⟩ 1
        (World.single memoryPath sampleRecord)).1 = 0
    ∧ (check_pressures ⟨some memoryPath, Pressure.unset⟩ 1
        (World.single memoryPath sampleRecord)).2.open_streams = 1
    ∧ sampleWorld.open_streams = 0
    ∧ (poll_cycle sampleConfig sampleWorld).open_streams = 3
    ∧ (poll_cycle sampleConfig (poll_cycle sampleConfig sampleWorld)).open_streams = 6 := by
  refine ⟨?_, ?_, ?_, ?_, ?_, ?_⟩ <;> decide

/-- A list that begins the list obtained by putting `p` in front of it is made of
characters of `p`. -/
theorem mem_of_prefix_shift (p : List Char) (hp : p ≠ []) :
    ∀ (n : Nat) (f : List Char), f.length ≤ n → f <+: p ++ f → ∀ c ∈ f, c ∈ p := by
  intro n
  induction n with
  | zero =>
    intro f hn _ c hc
    have : f = [] := List.length_eq_zero.mp (by omega)
    rw [this] at hc
    exact absurd hc (List.not_mem_nil c)
  | succ n ih =>
    intro f hn hpre c hc
    by_cases hle : f.length ≤ p.length
    · have : f <+: p :=
        List.prefix_of_prefix_length_le hpre (List.prefix_append p f) hle
      exact this.subset hc
    · have hpf : p <+: f :=
        List.prefix_of_prefix_length_le (List.prefix_append p f) hpre (by omega)
      obtain ⟨g, hg⟩ := hpf
      have hplen : 0 < p.length := List.length_pos.mpr hp
      have hglen : g.length ≤ n := by
        have : f.length = p.length + g.length := by rw [← hg, List.length_append]
        omega
      have hgpre : g <+: p ++ g := by
        rw [← hg] at hpre
        exact (List.prefix_append_right_inj p).mp hpre
      rw [← hg] at hc
      rcases List.mem_append.mp hc with h | h
      · exact h
      · exact ih g hglen hgpre c h

/-- The text `perror` writes for a file name never coincides with a report that puts the
file name after a colon-free heading. -/
theorem perror_text_ne (p : List Char) (hp : p ≠ []) (hcolon : ':' ∉ p)
    (f x y : List Char) : f ++ ':' :: x ≠ p ++ f ++ y := by
  intro heq
  have h1 : f <+: p ++ f ++ y := ⟨':' :: x, heq⟩
  have h2 : p ++ f <+: p ++ f ++ y := List.prefix_append _ _
  have hf : f <+: p ++ f :=
    List.prefix_of_prefix_length_le h1 h2 (by simp)
  have hmem := mem_of_prefix_shift p hp f.length f (le_refl _) hf
  have h3 : f ++ [':'] <+: p ++ f ++ y := ⟨x, by rw [← heq]; simp⟩
  have hplen : 0 < p.length := List.length_pos.mpr hp
  have h4 : f ++ [':'] <+: p ++ f :=
    List.prefix_of_prefix_length_le h3 h2 (by simp; omega)
  have h5 : ':' ∈ p ++ f := h4.subset (by simp)
  rcases List.mem_append.mp h5 with h | h
  · exact hcolon h
  · exact hcolon (hmem _ h)

theorem perror_ne_report (heading filename e : String) (hp : heading.data ≠ [])
    (hcolon : ':' ∉ heading.data) :
    filename ++ ": " ++ e ++ "\n" ≠ heading ++ filename ++ "\n" := by
  intro heq
  have h := congrArg String.data heq
  simp only [String.data_append] at h
  apply perror_text_ne heading.data hp hcolon filename.data (' ' :: (e.data ++ ['\n']))
    ['\n']
  rw [← h]
  simp
/-- C10, counterexample: the value returned when the bound source cannot be opened (first
world: no such file) equals the value returned on premature end of input (second world:
empty file) and on an unparseable line (third world: `avg60=` missing); the `stderr` lines
show which failure each call met. -/
theorem open_failure_value_equals_parse_error_value :
    (check_pressures ⟨some memoryPath, Pressure.unset⟩ 1 (World.ofFiles [])).1
      = (check_pressures ⟨some memoryPath, Pressure.unset⟩ 1
          (World.single memoryPath "")).1
    ∧ (check_pressures ⟨some memoryPath, Pressure.unset⟩ 1 (World.ofFiles [])).1
      = (check_pressures ⟨some memoryPath, Pressure.unset⟩ 1
          (World.single memoryPath "some avg10=5.00 avg300=1.00 total=9999\n")).1
    ∧ (check_pressures ⟨some memoryPath, Pressure.unset⟩ 1 (World.ofFiles [])).2.stderr
      = ["/proc/pressure/memory: No such file or directory\n"]
    ∧ (check_pressures ⟨some memoryPath, Pressure.unset⟩ 1
        (World.single memoryPath "")).2.stderr
      = ["Premature EOF from /proc/pressure/memory\n"]
    ∧ (check_pressures ⟨some memoryPath, Pressure.unset⟩ 1
        (World.single memoryPath "some avg10=5.00 avg300=1.00 total=9999\n")).2.stderr
      = ["Can't parse 'some' from /proc/pressure/memory\n"] := by
  refine ⟨?_, ?_, ?_, ?_, ?_⟩ <;> decide

/-- C10, amended: open failure, premature end of input and an unparseable line all make
`check_pressures` return the same value `-EINVAL`; what tells an open failure from a parse
error is the line written to `stderr`: `<filename>: <error text>` (from `perror`) against
`Premature EOF from <filename>` and `Can't parse 'some' from <filename>`, and the former
never coincides with either of the latter. -/
theorem error_value_shared_reports_differ (r : Resource) (has_full : Int)
    (filename e : String) (w1 w2 w3 : World) (c2 c3 line rest : List Char)
    (hname : r.filename = some filename)
    (h1 : w1.files filename = Except.error e)
    (h2 : w2.files filename = Except.ok c2)
    (h2e : fgets PRESSURE_LINE_LEN c2 = none)
    (h3 : w3.files filename = Except.ok c3)
    (h3l : fgets PRESSURE_LINE_LEN c3 = some (line, rest))
    (h3b : (sscanf line PRESSURE_FORMAT).1 ≠ 3) :
    (check_pressures r has_full w1).1 = -EINVAL
    ∧ (check_pressures r has_full w2).1 = -EINVAL
    ∧ (check_pressures r has_full w3).1 = -EINVAL
    ∧ (check_pressures r has_full w1).2.stderr = w1.stderr ++ [filename ++ ": " ++ e ++ "\n"]
    ∧ (check_pressures r has_full w2).2.stderr
        = w2.stderr ++ ["Premature EOF from " ++ filename ++ "\n"]
    ∧ (check_pressures r has_full w3).2.stderr
        = w3.stderr ++ ["Can't parse 'some' from " ++ filename ++ "\n"]
    ∧ filename ++ ": " ++ e ++ "\n" ≠ "Premature EOF from " ++ filename ++ "\n"
    ∧ filename ++ ": " ++ e ++ "\n" ≠ "Can't parse 'some' from " ++ filename ++ "\n" := by
  rw [path_open_failure r has_full w1 filename e hname h1,
    path_eof_some r has_full w2 filename c2 hname h2 h2e,
    path_bad_some r has_full w3 filename c3 line rest hname h3 h3l h3b]
  refine ⟨rfl, rfl, rfl, rfl, rfl, rfl, ?_, ?_⟩
  · exact perror_ne_report "Premature EOF from " filename e (by decide) (by decide)
  · exact perror_ne_report "Can't parse 'some' from " filename e (by decide) (by decide)

/-- Witness for C10 (amended): a missing file, an empty file and a file whose line lacks
`avg60=`. -/
theorem error_value_shared_reports_differ_witness :
    (check_pressures ⟨some memoryPath, Pressure.unset⟩ 1 (World.ofFiles [])).1 = -EINVAL
    ∧ (check_pressures ⟨some memoryPath, Pressure.unset⟩ 1
        (World.single memoryPath "")).1 = -EINVAL
    ∧ (check_pressures ⟨some memoryPath, Pressure.unset⟩ 1
        (World.single memoryPath "some avg10=5.00 avg300=1.00 total=9999\n")).1 = -EINVAL :=
  have h := error_value_shared_reports_differ ⟨some memoryPath, Pressure.unset⟩ 1
    memoryPath "No such file or directory" (World.ofFiles []) (World.single memoryPath "")
    (World.single memoryPath "some avg10=5.00 avg300=1.00 total=9999\n") []
    "some avg10=5.00 avg300=1.00 total=9999\n".toList
    "some avg10=5.00 avg300=1.00 total=9999\n".toList [] rfl rfl
    (by simp [World.single, World.files]) (by decide) (by simp [World.single, World.files])
    (by decide) (by decide)
  ⟨h.1, h.2.1, h.2.2.1⟩

/-! ### Thresholds and sample values -/

theorem gt_irrefl (x : F32) : F32.gt x x = false := by
  unfold F32.gt
  simp

theorem not_gt_of_atMost (x thr : F32) (h : atMost x thr) : F32.gt x thr = false := by
  rcases h with h | h
  · rw [h]; exact gt_irrefl thr
  · unfold F32.le at h
    unfold F32.gt
    simp only [Bool.and_eq_true, decide_eq_true_eq] at h
    have : ¬ thr.toInt < x.toInt := by omega
    simp [this]

theorem mag_eq_zero_iff (x : F32) : x.mag = 0 ↔ (x.expo.val = 0 ∧ x.frac.val = 0) := by
  unfold F32.mag
  by_cases he : x.expo.val = 0
  · simp [he]
  · have hp : 0 < 2 ^ (x.expo.val - 1) := Nat.two_pow_pos _
    have : (8388608 + x.frac.val) * 2 ^ (x.expo.val - 1) ≠ 0 :=
      Nat.mul_ne_zero (by omega) (by omega)
    simp [he, this]

/-- A threshold has the value zero (of either sign) exactly when it is false as a C
condition. -/
theorem toInt_eq_zero_iff (x : F32) : x.toInt = 0 ↔ x.truthy = false := by
  have hm := mag_eq_zero_iff x
  unfold F32.toInt F32.truthy
  cases x.sign <;> simp <;> omega

/-- The value `check_pressures` returns when the lines it needs parse. -/
theorem check_pressures_value (r : Resource) (has_full : Int) (w : World)
    (filename : String) (content line1 rest : List Char)
    (s10 s60 s300 f10 f60 f300 : F32)
    (hname : r.filename = some filename)
    (hopen : w.files filename = Except.ok content)
    (hline1 : fgets PRESSURE_LINE_LEN content = some (line1, rest))
    (hsome : sscanf line1 PRESSURE_FORMAT = (3, [s10, s60, s300]))
    (hfull : has_full ≠ 0 → ∃ line2 rest2,
      fgets PRESSURE_LINE_LEN rest = some (line2, rest2)
        ∧ sscanf line2 PRESSURE_FORMAT = (3, [f10, f60, f300])) :
    (check_pressures r has_full w).1
      = if someAlert r.thresholds s10 s60 s300 = true then 1
        else if has_full = 0 then 0
        else if fullAlert r.thresholds f10 f60 f300 = true then 1 else 0 := by
  cases hs : someAlert r.thresholds s10 s60 s300 with
  | true =>
    rw [path_alert_some r has_full w filename content line1 rest s10 s60 s300
      hname hopen hline1 hsome hs]
    simp
  | false =>
    by_cases hf : has_full = 0
    · rw [path_normal_some r has_full w filename content line1 rest s10 s60 s300
        hname hopen hline1 hsome hs hf]
      simp [hf]
    · obtain ⟨line2, rest2, hline2, hp2⟩ := hfull hf
      rw [path_full r has_full w filename content line1 rest line2 rest2 s10 s60 s300
        f10 f60 f300 hname hopen hline1 hsome hs hf hline2 hp2]
      simp [hf]

/-- C11: a parsed sample value exactly equal to its window's threshold does not trigger.
When the file opens and the lines the call needs parse, and every `some` value is at most
its `some` threshold (equal to it, or less than or equal) and, with `has_full` set, every
`full` value is at most its `full` threshold, `check_pressures` returns 0 (Normal). -/
theorem check_pressures_at_threshold (r : Resource) (has_full : Int) (w : World)
    (filename : String) (content line1 rest : List Char)
    (s10 s60 s300 f10 f60 f300 : F32)
    (hname : r.filename = some filename)
    (hopen : w.files filename = Except.ok content)
    (hline1 : fgets PRESSURE_LINE_LEN content = some (line1, rest))
    (hsome : sscanf line1 PRESSURE_FORMAT = (3, [s10, s60, s300]))
    (hfull : has_full ≠ 0 → ∃ line2 rest2,
      fgets PRESSURE_LINE_LEN rest = some (line2, rest2)
        ∧ sscanf line2 PRESSURE_FORMAT = (3, [f10, f60, f300]))
    (hs : atMost s10 r.thresholds.ten.some ∧ atMost s60 r.thresholds.sixty.some
      ∧ atMost s300 r.thresholds.three_hundred.some)
    (hfl : has_full ≠ 0 →
      atMost f10 r.thresholds.ten.full ∧ atMost f60 r.thresholds.sixty.full
        ∧ atMost f300 r.thresholds.three_hundred.full) :
    (check_pressures r has_full w).1 = 0 := by
  rw [check_pressures_value r has_full w filename content line1 rest s10 s60 s300
    f10 f60 f300 hname hopen hline1 hsome hfull]
  have h1 : someAlert r.thresholds s10 s60 s300 = false := by
    unfold someAlert
    rw [not_gt_of_atMost _ _ hs.1, not_gt_of_atMost _ _ hs.2.1, not_gt_of_atMost _ _ hs.2.2]
    simp
  rw [h1]
  by_cases hf : has_full = 0
  · simp [hf]
  · have h2 : fullAlert r.thresholds f10 f60 f300 = false := by
      obtain ⟨ha, hb, hc⟩ := hfl hf
      unfold fullAlert
      rw [not_gt_of_atMost _ _ ha, not_gt_of_atMost _ _ hb, not_gt_of_atMost _ _ hc]
      simp
    simp [hf, h2]

/-- Witness for C11: `avg10 = 0.10` against `ten.some = 0.1f` and `avg60 = 0.10` on the
`full` line against `sixty.full = 0.1f`, read with `has_full = 1`. -/
theorem check_pressures_at_threshold_witness :
    F32.ofRatio false 10 100 = Pressure.tenSomeSixtyFull.ten.some
    ∧ (check_pressures ⟨some memoryPath, Pressure.tenSomeSixtyFull⟩ 1
        (World.single memoryPath
          "some avg10=0.10 avg60=0.00 avg300=0.00 total=0\nfull avg10=0.00 avg60=0.10 avg300=0.00 total=0\n")).1
      = 0 :=
  ⟨by decide,
    check_pressures_at_threshold ⟨some memoryPath, Pressure.tenSomeSixtyFull⟩ 1
      (World.single memoryPath
        "some avg10=0.10 avg60=0.00 avg300=0.00 total=0\nfull avg10=0.00 avg60=0.10 avg300=0.00 total=0\n")
      memoryPath
      "some avg10=0.10 avg60=0.00 avg300=0.00 total=0\nfull avg10=0.00 avg60=0.10 avg300=0.00 total=0\n".toList
      "some avg10=0.10 avg60=0.00 avg300=0.00 total=0\n".toList
      "full avg10=0.00 avg60=0.10 avg300=0.00 total=0\n".toList
      (F32.ofRatio false 10 100) (F32.ofRatio false 0 1) (F32.ofRatio false 0 1)
      (F32.ofRatio false 0 1) (F32.ofRatio false 10 100) (F32.ofRatio false 0 1)
      rfl (by simp [World.single, World.files]) (by decide) (by decide)
      (fun _ => ⟨"full avg10=0.00 avg60=0.10 avg300=0.00 total=0\n".toList, [],
        by decide, by decide⟩)
      ⟨Or.inl (by decide), Or.inr (by decide), Or.inr (by decide)⟩
      (fun _ => ⟨Or.inr (by decide), Or.inl (by decide), Or.inr (by decide)⟩)⟩

/-- Every call of `check_pressures` returns 0, `-EINVAL` or 1, and it returns 1 only after
a successful parse of the `some` line whose test trips, or of both lines with `has_full`
set when the `full` test trips. -/
theorem check_pressures_cases (r : Resource) (has_full : Int) (w : World) :
    (check_pressures r has_full w).1 = 0
    ∨ (check_pressures r has_full w).1 = -EINVAL
    ∨ ((check_pressures r has_full w).1 = 1
      ∧ ∃ filename content line1 rest s10 s60 s300,
          r.filename = some filename ∧ w.files filename = Except.ok content
          ∧ fgets PRESSURE_LINE_LEN content = some (line1, rest)
          ∧ sscanf line1 PRESSURE_FORMAT = (3, [s10, s60, s300])
          ∧ (someAlert r.thresholds s10 s60 s300 = true
            ∨ (someAlert r.thresholds s10 s60 s300 = false ∧ has_full ≠ 0
              ∧ ∃ line2 rest2 f10 f60 f300,
                  fgets PRESSURE_LINE_LEN rest = some (line2, rest2)
                  ∧ sscanf line2 PRESSURE_FORMAT = (3, [f10, f60, f300])
                  ∧ fullAlert r.thresholds f10 f60 f300 = true))) := by
  cases hname : r.filename with
  | none =>
    left
    unfold check_pressures
    rw [hname]
  | some filename =>
    cases hopen : w.files filename with
    | error e =>
      right; left
      rw [path_open_failure r has_full w filename e hname hopen]
    | ok content =>
      cases hl1 : fgets PRESSURE_LINE_LEN content with
      | none =>
        right; left
        rw [path_eof_some r has_full w filename content hname hopen hl1]
      | some p =>
        obtain ⟨line1, rest⟩ := p
        by_cases hp : (sscanf line1 PRESSURE_FORMAT).1 = 3
        · obtain ⟨a, b, c, habc⟩ := sscanf_three _ _ hp
          cases hs : someAlert r.thresholds a b c with
          | true =>
            right; right
            rw [path_alert_some r has_full w filename content line1 rest a b c
              hname hopen hl1 habc hs]
            exact ⟨rfl, filename, content, line1, rest, a, b, c, rfl, hopen, hl1, habc,
              Or.inl hs⟩
          | false =>
            by_cases hf : has_full = 0
            · left
              rw [path_normal_some r has_full w filename content line1 rest a b c
                hname hopen hl1 habc hs hf]
            · cases hl2 : fgets PRESSURE_LINE_LEN rest with
              | none =>
                right; left
                rw [path_eof_full r has_full w filename content line1 rest a b c
                  hname hopen hl1 habc hs hf hl2]
              | some q =>
                obtain ⟨line2, rest2⟩ := q
                by_cases hq : (sscanf line2 PRESSURE_FORMAT).1 = 3
                · obtain ⟨d, e, f, hdef⟩ := sscanf_three _ _ hq
                  rw [path_full r has_full w filename content line1 rest line2 rest2 a b c
                    d e f hname hopen hl1 habc hs hf hl2 hdef]
                  cases hfa : fullAlert r.thresholds d e f with
                  | true =>
                    right; right
                    exact ⟨rfl, filename, content, line1, rest, a, b, c, rfl, hopen, hl1, habc,
                      Or.inr ⟨hs, hf, line2, rest2, d, e, f, hl2, hdef, hfa⟩⟩
                  | false =>
                    left
                    rfl
                · right; left
                  rw [path_bad_full r has_full w filename content line1 rest line2
                    rest2 a b c hname hopen hl1 habc hs hf hl2 hq]
        · right; left
          rw [path_bad_some r has_full w filename content line1 rest
            hname hopen hl1 hp]

theorem someAlert_congr_unset (t : Pressure) (a b c a2 b2 c2 : F32)
    (h10 : t.ten.some.toInt = 0 ∨ a = a2) (h60 : t.sixty.some.toInt = 0 ∨ b = b2)
    (h300 : t.three_hundred.some.toInt = 0 ∨ c = c2) :
    someAlert t a b c = someAlert t a2 b2 c2 := by
  unfold someAlert
  have e1 : (t.ten.some.truthy && a.gt t.ten.some)
      = (t.ten.some.truthy && a2.gt t.ten.some) := by
    rcases h10 with h | h
    · rw [(toInt_eq_zero_iff _).mp h]; rfl
    · rw [h]
  have e2 : (t.sixty.some.truthy && b.gt t.sixty.some)
      = (t.sixty.some.truthy && b2.gt t.sixty.some) := by
    rcases h60 with h | h
    · rw [(toInt_eq_zero_iff _).mp h]; rfl
    · rw [h]
  have e3 : (t.three_hundred.some.truthy && c.gt t.three_hundred.some)
      = (t.three_hundred.some.truthy && c2.gt t.three_hundred.some) := by
    rcases h300 with h | h
    · rw [(toInt_eq_zero_iff _).mp h]; rfl
    · rw [h]
  rw [e1, e2, e3]

theorem fullAlert_congr_unset (t : Pressure) (a b c a2 b2 c2 : F32)
    (h10 : t.ten.full.toInt = 0 ∨ a = a2) (h60 : t.sixty.full.toInt = 0 ∨ b = b2)
    (h300 : t.three_hundred.full.toInt = 0 ∨ c = c2) :
    fullAlert t a b c = fullAlert t a2 b2 c2 := by
  unfold fullAlert
  have e1 : (t.ten.full.truthy && a.gt t.ten.full)
      = (t.ten.full.truthy && a2.gt t.ten.full) := by
    rcases h10 with h | h
    · rw [(toInt_eq_zero_iff _).mp h]; rfl
    · rw [h]
  have e2 : (t.sixty.full.truthy && b.gt t.sixty.full)
      = (t.sixty.full.truthy && b2.gt t.sixty.full) := by
    rcases h60 with h | h
    · rw [(toInt_eq_zero_iff _).mp h]; rfl
    · rw [h]
  have e3 : (t.three_hundred.full.truthy && c.gt t.three_hundred.full)
      = (t.three_hundred.full.truthy && c2.gt t.three_hundred.full) := by
    rcases h300 with h | h
    · rw [(toInt_eq_zero_iff _).mp h]; rfl
    · rw [h]
  rw [e1, e2, e3]

theorem someAlert_unset (t : Pressure) (a b c : F32)
    (h10 : t.ten.some.toInt = 0) (h60 : t.sixty.some.toInt = 0)
    (h300 : t.three_hundred.some.toInt = 0) : someAlert t a b c = false := by
  unfold someAlert
  rw [(toInt_eq_zero_iff _).mp h10, (toInt_eq_zero_iff _).mp h60,
    (toInt_eq_zero_iff _).mp h300]
  rfl

theorem fullAlert_unset (t : Pressure) (a b c : F32)
    (h10 : t.ten.full.toInt = 0) (h60 : t.sixty.full.toInt = 0)
    (h300 : t.three_hundred.full.toInt = 0) : fullAlert t a b c = false := by
  unfold fullAlert
  rw [(toInt_eq_zero_iff _).mp h10, (toInt_eq_zero_iff _).mp h60,
    (toInt_eq_zero_iff _).mp h300]
  rfl

/-- C12: a window whose threshold is unset (has the value 0) never triggers on its own.
For two sources that both parse and whose sample values differ at most in windows whose
threshold is 0, `check_pressures` returns the same value; and when all six thresholds of a
resource are 0 it never returns Alert (1), whatever the source holds. -/
theorem unset_threshold_never_triggers (r : Resource) (has_full : Int) :
    (∀ (w w2 : World) (filename : String) (content line1 rest content2 line12 rest2 :
          List Char) (s10 s60 s300 f10 f60 f300 t10 t60 t300 g10 g60 g300 : F32),
        r.filename = some filename →
        w.files filename = Except.ok content →
        fgets PRESSURE_LINE_LEN content = some (line1, rest) →
        sscanf line1 PRESSURE_FORMAT = (3, [s10, s60, s300]) →
        (has_full ≠ 0 → ∃ l r2, fgets PRESSURE_LINE_LEN rest = some (l, r2)
          ∧ sscanf l PRESSURE_FORMAT = (3, [f10, f60, f300])) →
        w2.files filename = Except.ok content2 →
        fgets PRESSURE_LINE_LEN content2 = some (line12, rest2) →
        sscanf line12 PRESSURE_FORMAT = (3, [t10, t60, t300]) →
        (has_full ≠ 0 → ∃ l r2, fgets PRESSURE_LINE_LEN rest2 = some (l, r2)
          ∧ sscanf l PRESSURE_FORMAT = (3, [g10, g60, g300])) →
        (r.thresholds.ten.some.toInt = 0 ∨ s10 = t10) →
        (r.thresholds.sixty.some.toInt = 0 ∨ s60 = t60) →
        (r.thresholds.three_hundred.some.toInt = 0 ∨ s300 = t300) →
        (r.thresholds.ten.full.toInt = 0 ∨ f10 = g10) →
        (r.thresholds.sixty.full.toInt = 0 ∨ f60 = g60) →
        (r.thresholds.three_hundred.full.toInt = 0 ∨ f300 = g300) →
        (check_pressures r has_full w).1 = (check_pressures r has_full w2).1)
    ∧ (r.thresholds.ten.some.toInt = 0 → r.thresholds.sixty.some.toInt = 0 →
        r.thresholds.three_hundred.some.toInt = 0 → r.thresholds.ten.full.toInt = 0 →
        r.thresholds.sixty.full.toInt = 0 → r.thresholds.three_hundred.full.toInt = 0 →
        ∀ w, (check_pressures r has_full w).1 ≠ 1 ∧ (check_pressures r has_full w).1 ≤ 0) := by
  constructor
  · intro w w2 filename content line1 rest content2 line12 rest2 s10 s60 s300 f10 f60 f300
      t10 t60 t300 g10 g60 g300 hname hopen hl1 hs hfull hopen2 hl12 hs2 hfull2
      a1 a2 a3 b1 b2 b3
    rw [check_pressures_value r has_full w filename content line1 rest s10 s60 s300
        f10 f60 f300 hname hopen hl1 hs hfull,
      check_pressures_value r has_full w2 filename content2 line12 rest2 t10 t60 t300
        g10 g60 g300 hname hopen2 hl12 hs2 hfull2,
      someAlert_congr_unset r.thresholds s10 s60 s300 t10 t60 t300 a1 a2 a3,
      fullAlert_congr_unset r.thresholds f10 f60 f300 g10 g60 g300 b1 b2 b3]
  · intro a1 a2 a3 b1 b2 b3 w
    rcases check_pressures_cases r has_full w with h | h | ⟨_, _, _, _, _, a, b, c, _, _, _, _, h⟩
    · rw [h]; decide
    · rw [h]; decide
    · exfalso
      rcases h with h | ⟨_, _, _, _, d, e, f, _, _, h⟩
      · rw [someAlert_unset r.thresholds a b c a1 a2 a3] at h
        exact absurd h (by decide)
      · rw [fullAlert_unset r.thresholds d e f b1 b2 b3] at h
        exact absurd h (by decide)
/-- Witness for C12: with `ten.some = 0.1f` the only set threshold, raising `avg60`,
`avg300` and the `full` `avg10` of a quiet record to 99, 100 and 100 leaves the result
unchanged; with no threshold set the record of the specification does not give Alert. -/
theorem unset_threshold_never_triggers_witness :
    (check_pressures ⟨some memoryPath, Pressure.tenSome⟩ 1
        (World.single memoryPath
          "some avg10=0.05 avg60=0.00 avg300=0.00 total=0\nfull avg10=0.00 avg60=0.00 avg300=0.00 total=0\n")).1
      = (check_pressures ⟨some memoryPath, Pressure.tenSome⟩ 1
        (World.single memoryPath
          "some avg10=0.05 avg60=99.00 avg300=100.00 total=0\nfull avg10=100.00 avg60=0.00 avg300=0.00 total=0\n")).1
    ∧ (check_pressures ⟨some memoryPath, Pressure.unset⟩ 1
        (World.single memoryPath sampleRecord)).1 ≤ 0 :=
  ⟨(unset_threshold_never_triggers ⟨some memoryPath, Pressure.tenSome⟩ 1).1
      (World.single memoryPath
        "some avg10=0.05 avg60=0.00 avg300=0.00 total=0\nfull avg10=0.00 avg60=0.00 avg300=0.00 total=0\n")
      (World.single memoryPath
        "some avg10=0.05 avg60=99.00 avg300=100.00 total=0\nfull avg10=100.00 avg60=0.00 avg300=0.00 total=0\n")
      memoryPath
      "some avg10=0.05 avg60=0.00 avg300=0.00 total=0\nfull avg10=0.00 avg60=0.00 avg300=0.00 total=0\n".toList
      "some avg10=0.05 avg60=0.00 avg300=0.00 total=0\n".toList
      "full avg10=0.00 avg60=0.00 avg300=0.00 total=0\n".toList
      "some avg10=0.05 avg60=99.00 avg300=100.00 total=0\nfull avg10=100.00 avg60=0.00 avg300=0.00 total=0\n".toList
      "some avg10=0.05 avg60=99.00 avg300=100.00 total=0\n".toList
      "full avg10=100.00 avg60=0.00 avg300=0.00 total=0\n".toList
      (F32.ofRatio false 5 100) (F32.ofRatio false 0 1) (F32.ofRatio false 0 1)
      (F32.ofRatio false 0 1) (F32.ofRatio false 0 1) (F32.ofRatio false 0 1)
      (F32.ofRatio false 5 100) (F32.ofRatio false 99 1) (F32.ofRatio false 100 1)
      (F32.ofRatio false 100 1) (F32.ofRatio false 0 1) (F32.ofRatio false 0 1)
      rfl (by simp [World.single, World.files]) (by decide) (by decide)
      (fun _ => ⟨"full avg10=0.00 avg60=0.00 avg300=0.00 total=0\n".toList, [],
        by decide, by decide⟩)
      (by simp [World.single, World.files]) (by decide) (by decide)
      (fun _ => ⟨"full avg10=100.00 avg60=0.00 avg300=0.00 total=0\n".toList, [],
        by decide, by decide⟩)
      (Or.inr rfl) (Or.inl (by decide)) (Or.inl (by decide))
      (Or.inl (by decide)) (Or.inr rfl) (Or.inr rfl),
    ((unset_threshold_never_triggers ⟨some memoryPath, Pressure.unset⟩ 1).2
      (by decide) (by decide) (by decide) (by decide) (by decide) (by decide)
      (World.single memoryPath sampleRecord)).2⟩

/-! ### The poll cycle -/

/-- The value returned for a bound resource is a function of its thresholds, `has_full`
and the content of its file. -/
theorem check_pressures_value_of_content (r : Resource) (has_full : Int)
    (filename : String) (content : List Char) :
    ∃ v : Int, ∀ w : World, r.filename = some filename →
      w.files filename = Except.ok content → (check_pressures r has_full w).1 = v := by
  cases hl1 : fgets PRESSURE_LINE_LEN content with
  | none =>
    exact ⟨-EINVAL, fun w hname hopen => by
      rw [path_eof_some r has_full w filename content hname hopen hl1]⟩
  | some p =>
    obtain ⟨line1, rest⟩ := p
    by_cases hp : (sscanf line1 PRESSURE_FORMAT).1 = 3
    · obtain ⟨a, b, c, habc⟩ := sscanf_three _ _ hp
      cases hs : someAlert r.thresholds a b c with
      | true =>
        exact ⟨1, fun w hname hopen => by
          rw [path_alert_some r has_full w filename content line1 rest a b c
            hname hopen hl1 habc hs]⟩
      | false =>
        by_cases hf : has_full = 0
        · exact ⟨0, fun w hname hopen => by
            rw [path_normal_some r has_full w filename content line1 rest a b c
              hname hopen hl1 habc hs hf]⟩
        · cases hl2 : fgets PRESSURE_LINE_LEN rest with
          | none =>
            exact ⟨-EINVAL, fun w hname hopen => by
              rw [path_eof_full r has_full w filename content line1 rest a b c
                hname hopen hl1 habc hs hf hl2]⟩
          | some q =>
            obtain ⟨line2, rest2⟩ := q
            by_cases hq : (sscanf line2 PRESSURE_FORMAT).1 = 3
            · obtain ⟨d, e, f, hdef⟩ := sscanf_three _ _ hq
              exact ⟨if fullAlert r.thresholds d e f = true then 1 else 0,
                fun w hname hopen => by
                  rw [path_full r has_full w filename content line1 rest line2 rest2 a b c
                    d e f hname hopen hl1 habc hs hf hl2 hdef]⟩
            · exact ⟨-EINVAL, fun w hname hopen => by
                rw [path_bad_full r has_full w filename content line1 rest line2
                  rest2 a b c hname hopen hl1 habc hs hf hl2 hq]⟩
    · exact ⟨-EINVAL, fun w hname hopen => by
        rw [path_bad_some r has_full w filename content line1 rest hname hopen hl1 hp]⟩

/-- The value `check_pressures` returns depends on the world only through what opening the
resource's own file gives. -/
theorem check_pressures_value_congr (r : Resource) (has_full : Int) (w w2 : World)
    (h : ∀ filename, r.filename = some filename → w.files filename = w2.files filename) :
    (check_pressures r has_full w).1 = (check_pressures r has_full w2).1 := by
  cases hname : r.filename with
  | none =>
    unfold check_pressures
    rw [hname]
  | some filename =>
    have hw := h filename hname
    cases hopen : w.files filename with
    | error e =>
      rw [path_open_failure r has_full w filename e hname hopen,
        path_open_failure r has_full w2 filename e hname (hw ▸ hopen)]
    | ok content =>
      obtain ⟨v, hv⟩ := check_pressures_value_of_content r has_full filename content
      rw [hv w hname hopen, hv w2 hname (hw ▸ hopen)]

/-- A call of `check_pressures` changes neither the disk, nor the stream limit, nor what
the notifier has been handed, and closes no stream. -/
theorem check_pressures_frame (r : Resource) (has_full : Int) (w : World) :
    (check_pressures r has_full w).2.disk = w.disk
      ∧ (check_pressures r has_full w).2.max_streams = w.max_streams
      ∧ (check_pressures r has_full w).2.notified = w.notified
      ∧ w.open_streams ≤ (check_pressures r has_full w).2.open_streams := by
  cases hname : r.filename with
  | none =>
    unfold check_pressures
    rw [hname]
    exact ⟨rfl, rfl, rfl, le_refl _⟩
  | some filename =>
    cases hopen : w.files filename with
    | error e =>
      rw [path_open_failure r has_full w filename e hname hopen]
      exact ⟨rfl, rfl, rfl, le_refl _⟩
    | ok content =>
      rcases check_pressures_after_open r has_full w filename content hname hopen
        with h | ⟨t, h⟩
      · rw [h]; exact ⟨rfl, rfl, rfl, Nat.le_succ _⟩
      · rw [h]; exact ⟨rfl, rfl, rfl, Nat.le_succ _⟩

/-- One step of the poll cycle: the label is handed over exactly on a positive result;
an Error or Normal result hands over nothing and the step returns. -/
theorem poll_step (r : Resource) (has_full : Int) (label : String) (w : World) :
    (if (check_pressures r has_full w).1 > 0 then
        notify label (check_pressures r has_full w).2
      else (check_pressures r has_full w).2).notified
      = w.notified ++ (if 0 < (check_pressures r has_full w).1 then [label] else []) := by
  obtain ⟨_, _, hn, _⟩ := check_pressures_frame r has_full w
  by_cases hv : (check_pressures r has_full w).1 > 0
  · rw [if_pos hv, if_pos hv]
    unfold notify
    simp [hn]
  · rw [if_neg hv, if_neg hv]
    simp [hn]

/-- One pass of the loop over three bound resources whose files exist, with room for three
more streams, leaves three more streams open and the disk and the limit as they were. -/
theorem poll_cycle_open_streams (config : Config) (w : World) (fc fm fi : String)
    (cc cm ci : List Char)
    (hc : config.cpu.filename = some fc) (hm : config.memory.filename = some fm)
    (hi : config.io.filename = some fi)
    (dc : w.disk fc = Except.ok cc) (dm : w.disk fm = Except.ok cm)
    (di : w.disk fi = Except.ok ci)
    (hroom : w.open_streams + 3 ≤ w.max_streams) :
    (poll_cycle config w).open_streams = w.open_streams + 3
      ∧ (poll_cycle config w).disk = w.disk
      ∧ (poll_cycle config w).max_streams = w.max_streams := by
  have step : ∀ (r : Resource) (has_full : Int) (label : String) (v : World) (f : String)
      (c : List Char), r.filename = some f → v.disk f = Except.ok c →
      v.open_streams < v.max_streams →
      (if (check_pressures r has_full v).1 > 0 then
          notify label (check_pressures r has_full v).2
        else (check_pressures r has_full v).2).open_streams = v.open_streams + 1
      ∧ (if (check_pressures r has_full v).1 > 0 then
          notify label (check_pressures r has_full v).2
        else (check_pressures r has_full v).2).disk = v.disk
      ∧ (if (check_pressures r has_full v).1 > 0 then
          notify label (check_pressures r has_full v).2
        else (check_pressures r has_full v).2).max_streams = v.max_streams := by
    intro r has_full label v f c hname hd hlt
    have hopen : v.files f = Except.ok c := by
      unfold World.files
      rw [if_pos hlt, hd]
    have ho := check_pressures_open_streams r has_full v f c hname hopen
    obtain ⟨hdk, hmx, _, _⟩ := check_pressures_frame r has_full v
    by_cases hv : (check_pressures r has_full v).1 > 0
    · simp only [if_pos hv]
      exact ⟨ho, hdk, hmx⟩
    · simp only [if_neg hv]
      exact ⟨ho, hdk, hmx⟩
  obtain ⟨o1, d1, m1⟩ := step config.cpu 0 "CPU pressure high" w fc cc hc dc (by omega)
  generalize hw1 : (if (check_pressures config.cpu 0 w).1 > 0 then
      notify "CPU pressure high" (check_pressures config.cpu 0 w).2
    else (check_pressures config.cpu 0 w).2) = w1 at o1 d1 m1
  obtain ⟨o2, d2, m2⟩ := step config.memory 1 "Memory pressure high" w1 fm cm hm
    (by rw [d1]; exact dm) (by omega)
  generalize hw2 : (if (check_pressures config.memory 1 w1).1 > 0 then
      notify "Memory pressure high" (check_pressures config.memory 1 w1).2
    else (check_pressures config.memory 1 w1).2) = w2 at o2 d2 m2
  obtain ⟨o3, d3, m3⟩ := step config.io 1 "I/O pressure high" w2 fi ci hi
    (by rw [d2, d1]; exact di) (by omega)
  have hp : poll_cycle config w
      = (if (check_pressures config.io 1 w2).1 > 0 then
          notify "I/O pressure high" (check_pressures config.io 1 w2).2
        else (check_pressures config.io 1 w2).2) := by
    unfold poll_cycle
    simp only [hw1, hw2]
  rw [hp]
  exact ⟨by omega, by rw [d3, d2, d1], by omega⟩

/-- Passes of the loop over three bound resources whose files exist leave three more
streams open each, as long as the limit allows. -/
theorem poll_cycles_open_streams (config : Config) (w : World) (fc fm fi : String)
    (cc cm ci : List Char)
    (hc : config.cpu.filename = some fc) (hm : config.memory.filename = some fm)
    (hi : config.io.filename = some fi)
    (dc : w.disk fc = Except.ok cc) (dm : w.disk fm = Except.ok cm)
    (di : w.disk fi = Except.ok ci) :
    ∀ (n : Nat) (v : World), v.disk = w.disk → v.max_streams = w.max_streams →
      v.open_streams + 3 * n ≤ w.max_streams →
      (poll_cycles config n v).open_streams = v.open_streams + 3 * n
        ∧ (poll_cycles config n v).disk = w.disk
        ∧ (poll_cycles config n v).max_streams = w.max_streams := by
  intro n
  induction n with
  | zero =>
    intro v hd hmx _
    exact ⟨rfl, hd, hmx⟩
  | succ n ih =>
    intro v hd hmx hroom
    obtain ⟨o1, d1, m1⟩ := poll_cycle_open_streams config v fc fm fi cc cm ci hc hm hi
      (by rw [hd]; exact dc) (by rw [hd]; exact dm) (by rw [hd]; exact di) (by omega)
    obtain ⟨o2, d2, m2⟩ := ih (poll_cycle config v) (by rw [d1, hd]) (by rw [m1, hmx])
      (by omega)
    show (poll_cycles config n (poll_cycle config v)).open_streams = _ ∧ _
    exact ⟨by omega, d2, m2⟩

/-- C13, the code at the failing input: 1023 of 1024 streams are open and the memory file
reports `avg60 = 5.00` against `sixty.some = 0.1f`. On its own source `check_pressures`
gives Alert for memory. In the cycle the cpu call (Normal) takes the last stream, the
memory and io calls fail in `fopen` (Error) and no label is handed over; with the cpu file
missing instead, the cpu call is an Error that takes no stream and memory gives Alert and
its label. So the result for cpu changes the result and the notification for memory. The
stream count, disk and limit of the failing input are those the loop itself reaches from a
fresh start after 341 passes. -/
theorem poll_cycle_resources_share_streams :
    (check_pressures sampleConfig.memory 1 busyWorld).1 = 1
    ∧ (check_pressures sampleConfig.cpu 0 busyWorld).1 = 0
    ∧ (check_pressures sampleConfig.memory 1
        (check_pressures sampleConfig.cpu 0 busyWorld).2).1 = -EINVAL
    ∧ (poll_cycle sampleConfig busyWorld).notified = []
    ∧ (poll_cycle sampleConfig busyWorld).stderr
      = ["/proc/pressure/memory: Too many open files\n",
         "/proc/pressure/io: Too many open files\n"]
    ∧ (check_pressures sampleConfig.cpu 0 busyWorldNoCpu).1 = -EINVAL
    ∧ (check_pressures sampleConfig.memory 1
        (check_pressures sampleConfig.cpu 0 busyWorldNoCpu).2).1 = 1
    ∧ (poll_cycle sampleConfig busyWorldNoCpu).notified = ["Memory pressure high"]
    ∧ (poll_cycles sampleConfig 341 (World.ofFiles memoryHighFiles)).open_streams
      = busyWorld.open_streams
    ∧ (poll_cycles sampleConfig 341 (World.ofFiles memoryHighFiles)).disk = busyWorld.disk
    ∧ (poll_cycles sampleConfig 341 (World.ofFiles memoryHighFiles)).max_streams
      = busyWorld.max_streams := by
  have h := poll_cycles_open_streams sampleConfig (World.ofFiles memoryHighFiles)
    "/proc/pressure/cpu" "/proc/pressure/memory" "/proc/pressure/io" _ _ _
    rfl rfl rfl rfl rfl rfl 341 (World.ofFiles memoryHighFiles) rfl rfl (by decide)
  refine ⟨by decide, by decide, by decide, by decide, by decide, by decide, by decide,
    by decide, ?_, ?_, ?_⟩
  · rw [h.1]; rfl
  · rw [h.2.1]; rfl
  · rw [h.2.2]; rfl

/-! ### Evaluation without the `full` line -/

/-- With `has_full = 0` the returned value is computed from the first line alone. -/
theorem check_pressures_some_only (r : Resource) (w : World) (filename : String)
    (content : List Char)
    (hname : r.filename = some filename) (hopen : w.files filename = Except.ok content) :
    (check_pressures r 0 w).1
      = match firstLine content with
        | none => -EINVAL
        | some line =>
          if (sscanf line PRESSURE_FORMAT).1 ≠ 3 then -EINVAL
          else if someAlert r.thresholds ((sscanf line PRESSURE_FORMAT).2.getD 0 F32.zero)
              ((sscanf line PRESSURE_FORMAT).2.getD 1 F32.zero)
              ((sscanf line PRESSURE_FORMAT).2.getD 2 F32.zero) = true then 1
          else 0 := by
  unfold firstLine
  cases hl1 : fgets PRESSURE_LINE_LEN content with
  | none =>
    rw [path_eof_some r 0 w filename content hname hopen hl1]
    rfl
  | some p =>
    obtain ⟨line1, rest⟩ := p
    simp only [Option.map_some']
    by_cases hp : (sscanf line1 PRESSURE_FORMAT).1 = 3
    · obtain ⟨a, b, c, habc⟩ := sscanf_three _ _ hp
      rw [if_neg (by simpa using hp), habc]
      simp only [List.getD_cons_zero, List.getD_cons_succ]
      by_cases hs : someAlert r.thresholds a b c = true
      · rw [path_alert_some r 0 w filename content line1 rest a b c
          hname hopen hl1 habc hs, if_pos hs]
      · rw [path_normal_some r 0 w filename content line1 rest a b c
          hname hopen hl1 habc (by simpa using hs) rfl, if_neg hs]
    · rw [path_bad_some r 0 w filename content line1 rest hname hopen hl1 hp, if_pos hp]

theorem someAlert_congr_some (t t2 : Pressure) (a b c : F32)
    (h10 : t.ten.some = t2.ten.some) (h60 : t.sixty.some = t2.sixty.some)
    (h300 : t.three_hundred.some = t2.three_hundred.some) :
    someAlert t a b c = someAlert t2 a b c := by
  unfold someAlert
  rw [h10, h60, h300]

theorem fgets_take_shared (line t t2 : List Char) :
    ∀ k, (fgets_take k (line ++ '\n' :: t)).1 = (fgets_take k (line ++ '\n' :: t2)).1 := by
  induction line with
  | nil =>
    intro k
    cases k with
    | zero => rfl
    | succ k => simp [fgets_take]
  | cons a line ih =>
    intro k
    cases k with
    | zero => rfl
    | succ k =>
      by_cases ha : a = '\n'
      · simp [fgets_take, ha]
      · simp [fgets_take, ha, ih k]

/-- Two sources that agree up to and including their first newline give the first `fgets`
the same text, whatever follows. -/
theorem firstLine_shared (line t t2 : List Char) :
    firstLine (line ++ '\n' :: t) = firstLine (line ++ '\n' :: t2) := by
  unfold firstLine fgets
  have h := fgets_take_shared line t t2 (PRESSURE_LINE_LEN - 1)
  cases line with
  | nil => simpa using h
  | cons a l => simpa using h

/-- C14: with `has_full = 0`, as the poll loop passes for cpu, the result of
`check_pressures` depends only on the first line of the source and on the three `some`
thresholds: two bound resources whose files open, whose sources give the first `fgets` the
same text and whose `some` thresholds are equal get the same result, whatever their `full`
thresholds and whatever follows the first line. Sources that agree up to their first
newline are such sources. -/
theorem cpu_some_only (r r2 : Resource) (w w2 : World) (filename filename2 : String)
    (content content2 : List Char)
    (hname : r.filename = some filename) (hname2 : r2.filename = some filename2)
    (hopen : w.files filename = Except.ok content)
    (hopen2 : w2.files filename2 = Except.ok content2)
    (hfirst : firstLine content = firstLine content2)
    (h10 : r.thresholds.ten.some = r2.thresholds.ten.some)
    (h60 : r.thresholds.sixty.some = r2.thresholds.sixty.some)
    (h300 : r.thresholds.three_hundred.some = r2.thresholds.three_hundred.some) :
    (check_pressures r 0 w).1 = (check_pressures r2 0 w2).1
    ∧ ∀ line t t2 : List Char,
        firstLine (line ++ '\n' :: t) = firstLine (line ++ '\n' :: t2) := by
  refine ⟨?_, firstLine_shared⟩
  rw [check_pressures_some_only r w filename content hname hopen,
    check_pressures_some_only r2 w2 filename2 content2 hname2 hopen2, hfirst]
  cases firstLine content2 with
  | none => rfl
  | some line =>
    simp only []
    rw [someAlert_congr_some r.thresholds r2.thresholds _ _ _ h10 h60 h300]

/-- Witness for C14: a one-line cpu source against the same line followed by a malformed
line and a `full` line far above thresholds that only the second resource has set. -/
theorem cpu_some_only_witness :
    (check_pressures ⟨some "/proc/pressure/cpu", Pressure.tenSome⟩ 0
        (World.single "/proc/pressure/cpu"
          "some avg10=0.05 avg60=0.00 avg300=0.00 total=0\n")).1
      = (check_pressures ⟨some "/proc/pressure/cpu", Pressure.tenSomeAllFull⟩ 0
        (World.single "/proc/pressure/cpu"
          "some avg10=0.05 avg60=0.00 avg300=0.00 total=0\nfull\nfull avg10=99.00 avg60=99.00 avg300=99.00 total=0\n")).1 :=
  (cpu_some_only ⟨some "/proc/pressure/cpu", Pressure.tenSome⟩
    ⟨some "/proc/pressure/cpu", Pressure.tenSomeAllFull⟩
    (World.single "/proc/pressure/cpu" "some avg10=0.05 avg60=0.00 avg300=0.00 total=0\n")
    (World.single "/proc/pressure/cpu"
      "some avg10=0.05 avg60=0.00 avg300=0.00 total=0\nfull\nfull avg10=99.00 avg60=99.00 avg300=99.00 total=0\n")
    "/proc/pressure/cpu" "/proc/pressure/cpu"
    "some avg10=0.05 avg60=0.00 avg300=0.00 total=0\n".toList
    "some avg10=0.05 avg60=0.00 avg300=0.00 total=0\nfull\nfull avg10=99.00 avg60=99.00 avg300=99.00 total=0\n".toList
    rfl rfl (by simp [World.single, World.files]) (by simp [World.single, World.files]) (by decide)
    rfl rfl rfl).1

/-! ### The built-in thresholds -/

/-- The thresholds of the configuration `init_config` returns. -/
theorem init_config_thresholds (sys : Sys) (c : Config) (h : init_config sys = Except.ok c) :
    c.cpu.thresholds = Pressure.tenSome ∧ c.memory.thresholds = Pressure.sixtySome
      ∧ c.io.thresholds = Pressure.unset := by
  unfold init_config at h
  cases ha : sys.alloc 0 with
  | false => simp [ha] at h
  | true =>
    simp only [ha, Bool.not_true, Bool.false_eq_true, if_false] at h
    cases h1 : get_pressure_file sys 1 "cpu" with
    | error e => simp [h1] at h
    | ok f1 =>
      cases h2 : get_pressure_file sys 2 "memory" with
      | error e => simp [h1, h2] at h
      | ok f2 =>
        cases h3 : get_pressure_file sys 3 "io" with
        | error e => simp [h1, h2, h3] at h
        | ok f3 =>
          simp only [h1, h2, h3] at h
          injection h with h
          rw [← h]
          exact ⟨rfl, rfl, rfl⟩

theorem someAlert_tenSome (a b c : F32) :
    someAlert Pressure.tenSome a b c = F32.gt a F32.c0_1 := by
  have h0 : F32.zero.truthy = false := by decide
  have h1 : F32.c0_1.truthy = true := by decide
  simp [someAlert, Pressure.tenSome, h0, h1]

theorem someAlert_sixtySome (a b c : F32) :
    someAlert Pressure.sixtySome a b c = F32.gt b F32.c0_1 := by
  have h0 : F32.zero.truthy = false := by decide
  have h1 : F32.c0_1.truthy = true := by decide
  simp [someAlert, Pressure.sixtySome, h0, h1]

theorem fullAlert_no_full (t : Pressure) (a b c : F32)
    (h : t = Pressure.tenSome ∨ t = Pressure.sixtySome ∨ t = Pressure.unset) :
    fullAlert t a b c = false := by
  have h0 : F32.zero.truthy = false := by decide
  rcases h with h | h | h <;> subst h <;>
    simp [fullAlert, Pressure.tenSome, Pressure.sixtySome, Pressure.unset, h0]

theorem someAlert_unset_all (a b c : F32) : someAlert Pressure.unset a b c = false := by
  have h0 : F32.zero.truthy = false := by decide
  simp [someAlert, Pressure.unset, h0]

/-- C15: in the configuration `init_config` builds every threshold is 0 except
cpu `ten.some = 0.1f` and memory `sixty.some = 0.1f`. Consequently, whatever the sources
hold, `check_pressures` on the io resource never returns Alert; on the memory resource
(`has_full = 1`) it returns Alert exactly when the first line parses and its `avg60` value
is strictly greater than the threshold `0.1f`; on the cpu resource (`has_full = 0`) exactly
when the first line parses and its `avg10` value is strictly greater than `0.1f`. -/
theorem init_config_alerts (sys : Sys) (c : Config) (h : init_config sys = Except.ok c) :
    (c.cpu.thresholds = Pressure.tenSome ∧ c.memory.thresholds = Pressure.sixtySome
      ∧ c.io.thresholds = Pressure.unset)
    ∧ (∀ (w : World) (has_full : Int),
        (check_pressures c.io has_full w).1 ≠ 1 ∧ (check_pressures c.io has_full w).1 ≤ 0)
    ∧ (∀ w : World, 0 < (check_pressures c.memory 1 w).1 ↔
        ∃ filename content line rest avg10 avg60 avg300,
          c.memory.filename = some filename ∧ w.files filename = Except.ok content
          ∧ fgets PRESSURE_LINE_LEN content = some (line, rest)
          ∧ sscanf line PRESSURE_FORMAT = (3, [avg10, avg60, avg300])
          ∧ F32.gt avg60 F32.c0_1 = true)
    ∧ (∀ w : World, 0 < (check_pressures c.cpu 0 w).1 ↔
        ∃ filename content line rest avg10 avg60 avg300,
          c.cpu.filename = some filename ∧ w.files filename = Except.ok content
          ∧ fgets PRESSURE_LINE_LEN content = some (line, rest)
          ∧ sscanf line PRESSURE_FORMAT = (3, [avg10, avg60, avg300])
          ∧ F32.gt avg10 F32.c0_1 = true) := by
  obtain ⟨hc, hm, hi⟩ := init_config_thresholds sys c h
  refine ⟨⟨hc, hm, hi⟩, ?_, ?_, ?_⟩
  · intro w has_full
    rcases check_pressures_cases c.io has_full w with
      h | h | ⟨_, _, _, _, _, a, b, d, _, _, _, _, h⟩
    · rw [h]; decide
    · rw [h]; decide
    · exfalso
      rcases h with h | ⟨_, _, _, _, e, f, g, _, _, h⟩
      · rw [hi, someAlert_unset_all] at h
        exact absurd h (by decide)
      · rw [fullAlert_no_full _ _ _ _ (Or.inr (Or.inr hi))] at h
        exact absurd h (by decide)
  · intro w
    constructor
    · intro hpos
      rcases check_pressures_cases c.memory 1 w with
        h | h | ⟨_, fn, content, line, rest, a, b, d, hname, hopen, hl, hp, h⟩
      · rw [h] at hpos; exact absurd hpos (by decide)
      · rw [h] at hpos; exact absurd hpos (by decide)
      · rcases h with h | ⟨_, _, _, _, e, f, g, _, _, h⟩
        · rw [hm, someAlert_sixtySome] at h
          exact ⟨fn, content, line, rest, a, b, d, hname, hopen, hl, hp, h⟩
        · rw [fullAlert_no_full _ _ _ _ (Or.inr (Or.inl hm))] at h
          exact absurd h (by decide)
    · rintro ⟨fn, content, line, rest, a, b, d, hname, hopen, hl, hp, hgt⟩
      rw [path_alert_some c.memory 1 w fn content line rest a b d hname hopen hl hp
        (by rw [hm, someAlert_sixtySome]; exact hgt)]
      exact (by decide : (0 : Int) < 1)
  · intro w
    constructor
    · intro hpos
      rcases check_pressures_cases c.cpu 0 w with
        h | h | ⟨_, fn, content, line, rest, a, b, d, hname, hopen, hl, hp, h⟩
      · rw [h] at hpos; exact absurd hpos (by decide)
      · rw [h] at hpos; exact absurd hpos (by decide)
      · rcases h with h | ⟨_, hne, _⟩
        · rw [hc, someAlert_tenSome] at h
          exact ⟨fn, content, line, rest, a, b, d, hname, hopen, hl, hp, h⟩
        · exact absurd rfl hne
    · rintro ⟨fn, content, line, rest, a, b, d, hname, hopen, hl, hp, hgt⟩
      rw [path_alert_some c.cpu 0 w fn content line rest a b d hname hopen hl hp
        (by rw [hc, someAlert_tenSome]; exact hgt)]
      exact (by decide : (0 : Int) < 1)

/-- Witness for C15: the start-up environment in which `/proc/pressure/cpu` is the only
readable pressure file; a cpu line with `avg10 = 0.11` gives Alert, one with
`avg10 = 0.10` does not. -/
theorem init_config_alerts_witness :
    init_config Sys.cpuOnly = Except.ok cpuOnlyConfig
    ∧ cpuOnlyConfig.cpu.thresholds = Pressure.tenSome
    ∧ 0 < (check_pressures cpuOnlyConfig.cpu 0
        (World.single "/proc/pressure/cpu"
          "some avg10=0.11 avg60=0.00 avg300=0.00 total=0\n")).1
    ∧ ¬ 0 < (check_pressures cpuOnlyConfig.cpu 0
        (World.single "/proc/pressure/cpu"
          "some avg10=0.10 avg60=0.00 avg300=0.00 total=0\n")).1 :=
  ⟨rfl, (init_config_alerts Sys.cpuOnly cpuOnlyConfig rfl).1.1,
    ((init_config_alerts Sys.cpuOnly cpuOnlyConfig rfl).2.2.2
      (World.single "/proc/pressure/cpu"
        "some avg10=0.11 avg60=0.00 avg300=0.00 total=0\n")).mpr
      ⟨"/proc/pressure/cpu", "some avg10=0.11 avg60=0.00 avg300=0.00 total=0\n".toList,
        "some avg10=0.11 avg60=0.00 avg300=0.00 total=0\n".toList, [],
        F32.ofRatio false 11 100, F32.ofRatio false 0 1, F32.ofRatio false 0 1,
        rfl, by simp [World.single, World.files], by decide, by decide, by decide⟩,
    by decide⟩

end PsiNotify
